import Mathlib

/-!
# Verification of the SingaPay payment-gateway SDK request pipeline

Shallow embedding of the SDK's authenticated HTTP request pipeline, shipped
in two parallel implementations:

* the Node implementation (namespace `Node`): `Config`, `Client`
  (`requestWithRetry`, `shouldRetry`, `request`), `Response`,
  `Authentication`, `MemoryCache`;
* the PHP implementation (namespace `Php`): `Client::requestWithRetry`,
  `Client::shouldRetry`, `Client::request`, `Response`, `Authentication`,
  `ArrayCache`.

JSON bodies are modelled by the inductive `JVal`; JavaScript truthiness,
nullish coalescing (`??`) and optional chaining (`?.`), and PHP's `??`
(isset-based) and `?:` (truthiness-based) operators are modelled explicitly,
since the two implementations differ precisely in those operators.

Exception causes (`originalError` in Node, `$previous` in PHP) are modelled
by the message string of the attached throwable (`Option String`, `none` =
no cause); exception messages taken from response bodies are rendered to
strings with `JVal.render`.
-/

namespace SingaPay

/-- A JSON-like runtime value, used for response bodies in both
implementations.  `vObj` models a JS object / PHP associative array as an
association list (keys assumed distinct, first binding wins on lookup). -/
inductive JVal where
  | vNull
  | vBool (b : Bool)
  | vNum (n : Int)
  | vStr (s : String)
  | vObj (fields : List (String × JVal))
  | vArr (xs : List JVal)
deriving Repr

mutual

/-- Decidable equality for `JVal` (hand-written: the nested occurrence in
`vObj`/`vArr` defeats the automatic derivation). -/
def JVal.decEq : (a b : JVal) → Decidable (a = b)
  | .vNull, .vNull => .isTrue rfl
  | .vBool a, .vBool b =>
      if h : a = b then .isTrue (by rw [h]) else .isFalse (by intro hh; cases hh; exact h rfl)
  | .vNum a, .vNum b =>
      if h : a = b then .isTrue (by rw [h]) else .isFalse (by intro hh; cases hh; exact h rfl)
  | .vStr a, .vStr b =>
      if h : a = b then .isTrue (by rw [h]) else .isFalse (by intro hh; cases hh; exact h rfl)
  | .vObj fs, .vObj gs =>
      match JVal.decEqFields fs gs with
      | .isTrue h => .isTrue (by rw [h])
      | .isFalse h => .isFalse (by intro hh; cases hh; exact h rfl)
  | .vArr xs, .vArr ys =>
      match JVal.decEqList xs ys with
      | .isTrue h => .isTrue (by rw [h])
      | .isFalse h => .isFalse (by intro hh; cases hh; exact h rfl)
  | .vNull, .vBool _ => .isFalse (by intro h; cases h)
  | .vNull, .vNum _ => .isFalse (by intro h; cases h)
  | .vNull, .vStr _ => .isFalse (by intro h; cases h)
  | .vNull, .vObj _ => .isFalse (by intro h; cases h)
  | .vNull, .vArr _ => .isFalse (by intro h; cases h)
  | .vBool _, .vNull => .isFalse (by intro h; cases h)
  | .vBool _, .vNum _ => .isFalse (by intro h; cases h)
  | .vBool _, .vStr _ => .isFalse (by intro h; cases h)
  | .vBool _, .vObj _ => .isFalse (by intro h; cases h)
  | .vBool _, .vArr _ => .isFalse (by intro h; cases h)
  | .vNum _, .vNull => .isFalse (by intro h; cases h)
  | .vNum _, .vBool _ => .isFalse (by intro h; cases h)
  | .vNum _, .vStr _ => .isFalse (by intro h; cases h)
  | .vNum _, .vObj _ => .isFalse (by intro h; cases h)
  | .vNum _, .vArr _ => .isFalse (by intro h; cases h)
  | .vStr _, .vNull => .isFalse (by intro h; cases h)
  | .vStr _, .vBool _ => .isFalse (by intro h; cases h)
  | .vStr _, .vNum _ => .isFalse (by intro h; cases h)
  | .vStr _, .vObj _ => .isFalse (by intro h; cases h)
  | .vStr _, .vArr _ => .isFalse (by intro h; cases h)
  | .vObj _, .vNull => .isFalse (by intro h; cases h)
  | .vObj _, .vBool _ => .isFalse (by intro h; cases h)
  | .vObj _, .vNum _ => .isFalse (by intro h; cases h)
  | .vObj _, .vStr _ => .isFalse (by intro h; cases h)
  | .vObj _, .vArr _ => .isFalse (by intro h; cases h)
  | .vArr _, .vNull => .isFalse (by intro h; cases h)
  | .vArr _, .vBool _ => .isFalse (by intro h; cases h)
  | .vArr _, .vNum _ => .isFalse (by intro h; cases h)
  | .vArr _, .vStr _ => .isFalse (by intro h; cases h)
  | .vArr _, .vObj _ => .isFalse (by intro h; cases h)

/-- Decidable equality for `vObj` field lists. -/
def JVal.decEqFields : (a b : List (String × JVal)) → Decidable (a = b)
  | [], [] => .isTrue rfl
  | [], _ :: _ => .isFalse (by intro h; cases h)
  | _ :: _, [] => .isFalse (by intro h; cases h)
  | (k, v) :: xs, (k', v') :: ys =>
      if hk : k = k' then
        match JVal.decEq v v' with
        | .isTrue hv =>
            match JVal.decEqFields xs ys with
            | .isTrue ht => .isTrue (by rw [hk, hv, ht])
            | .isFalse ht => .isFalse (by intro hh; cases hh; exact ht rfl)
        | .isFalse hv => .isFalse (by intro hh; cases hh; exact hv rfl)
      else .isFalse (by intro hh; cases hh; exact hk rfl)

/-- Decidable equality for `vArr` element lists. -/
def JVal.decEqList : (a b : List JVal) → Decidable (a = b)
  | [], [] => .isTrue rfl
  | [], _ :: _ => .isFalse (by intro h; cases h)
  | _ :: _, [] => .isFalse (by intro h; cases h)
  | x :: xs, y :: ys =>
      match JVal.decEq x y with
      | .isTrue hv =>
          match JVal.decEqList xs ys with
          | .isTrue ht => .isTrue (by rw [hv, ht])
          | .isFalse ht => .isFalse (by intro hh; cases hh; exact ht rfl)
      | .isFalse hv => .isFalse (by intro hh; cases hh; exact hv rfl)

end

instance : DecidableEq JVal := JVal.decEq

namespace JVal

/-- JavaScript truthiness: `null`, `false`, `0`, `""` are falsy; every
object and array (even empty) is truthy.  PHP differs only on empty arrays,
which never arise at the truthiness checks we embed. -/
def truthy : JVal → Bool
  | vNull => false
  | vBool b => b
  | vNum n => n != 0
  | vStr s => s != ""
  | vObj _ => true
  | vArr _ => true

/-- Render a body value as an exception-message string (the cast applied
when a body-supplied message feeds an exception constructor). -/
def render : JVal → String
  | vStr s => s
  | vNum n => toString n
  | vBool b => if b then "true" else "false"
  | vNull => ""
  | vObj _ => "[object]"
  | vArr _ => "[array]"

end JVal

/-- Property access on a JS value: `none` is `undefined` (absent key, or
receiver not an object). -/
def jsGet : JVal → String → Option JVal
  | .vObj fs, k => fs.lookup k
  | _, _ => none

/-- Truthiness of a possibly-`undefined` JS value. -/
def truthyOpt : Option JVal → Bool
  | some v => v.truthy
  | none => false

/-- JS optional chaining `v?.k`: `undefined` when the receiver is nullish. -/
def jsOptChain (v : Option JVal) (k : String) : Option JVal :=
  match v with
  | none => none
  | some .vNull => none
  | some w => jsGet w k

/-- JS nullish coalescing `a ?? d`: `d` when `a` is `null` or `undefined`. -/
def jsNullish (a : Option JVal) (d : JVal) : JVal :=
  match a with
  | none => d
  | some .vNull => d
  | some v => v

/-- PHP `$x ?? d` on an array index: `d` when the index is unset or holds
`null` (PHP `isset` is false on a `null` value). -/
def phpCoalesce (a : Option JVal) (d : JVal) : JVal :=
  match a with
  | none => d
  | some .vNull => d
  | some v => v

/-- PHP `isset` on a possibly-absent value. -/
def phpIsset : Option JVal → Bool
  | none => false
  | some .vNull => false
  | some _ => true

/-- Index into a PHP value one level down (`$v['k']`); `none` when the
receiver is not an array or the key is unset. -/
def phpIndex (v : JVal) (k : String) : Option JVal :=
  match v with
  | .vObj fs => fs.lookup k
  | _ => none

/-! ## Response wrappers -/

namespace Node

/-- Node `Response` (src/unnamed/part_004): wraps `(statusCode, body)`. -/
structure Response where
  statusCode : Int
  body : JVal
deriving Repr, DecidableEq

namespace Response

/-- `isSuccess()`:
`statusCode >= 200 && statusCode < 300 && (body.success ?? false) === true`. -/
def isSuccess (r : Response) : Bool :=
  decide (200 ≤ r.statusCode) && decide (r.statusCode < 300)
    && (jsNullish (jsGet r.body "success") (.vBool false) == .vBool true)

/-- `getData()`: `this.body.data || this.body` (JS `||`: falsy `data`,
including an absent one, falls back to the whole body). -/
def getData (r : Response) : JVal :=
  match jsGet r.body "data" with
  | some v => if v.truthy then v else r.body
  | none => r.body

/-- `getMessage()`: `body.error?.message` if truthy, else `body.message` if
truthy, else `null` (modelled as `none`). -/
def getMessage (r : Response) : Option JVal :=
  let em := jsOptChain (jsGet r.body "error") "message"
  if truthyOpt em then em
  else
    let m := jsGet r.body "message"
    if truthyOpt m then m else none

/-- `getCode()`: `this.body.error?.code || this.statusCode`. -/
def getCode (r : Response) : JVal :=
  match jsOptChain (jsGet r.body "error") "code" with
  | some c => if c.truthy then c else .vNum r.statusCode
  | none => .vNum r.statusCode

/-- `getPagination()`: `this.body.pagination || null`. -/
def getPagination (r : Response) : Option JVal :=
  match jsGet r.body "pagination" with
  | some p => if p.truthy then some p else none
  | none => none

end Response

end Node

namespace Php

/-- PHP `Response` (src/php/src/Http/Response.php): wraps an int status
code and a decoded associative-array body. -/
structure Response where
  statusCode : Int
  body : JVal
deriving Repr, DecidableEq

namespace Response

/-- `isSuccess()`: `statusCode >= 200 && statusCode < 300 &&
($body['success'] ?? false) === true`. -/
def isSuccess (r : Response) : Bool :=
  decide (200 ≤ r.statusCode) && decide (r.statusCode < 300)
    && (phpCoalesce (phpIndex r.body "success") (.vBool false) == .vBool true)

/-- `getData()`: `$this->body['data'] ?? null` (`none` models PHP `null`). -/
def getData (r : Response) : Option JVal :=
  match phpIndex r.body "data" with
  | some .vNull => none
  | some v => some v
  | none => none

/-- `getMessage()`: `$body['error']['message']` when isset, else
`$body['message']` when isset, else `null`. -/
def getMessage (r : Response) : Option JVal :=
  let em := jsOptChain (phpIndex r.body "error") "message"
  if phpIsset em then em
  else
    let m := phpIndex r.body "message"
    if phpIsset m then m else none

/-- `getCode()`: `$this->body['error']['code'] ?? $this->statusCode`. -/
def getCode (r : Response) : JVal :=
  phpCoalesce (jsOptChain (phpIndex r.body "error") "code") (.vNum r.statusCode)

/-- `getPagination()`: `$this->body['pagination'] ?? null`. -/
def getPagination (r : Response) : Option JVal :=
  match phpIndex r.body "pagination" with
  | some .vNull => none
  | some v => some v
  | none => none

end Response

end Php

/-! ## Error taxonomy

`AuthenticationException` / `ValidationException` / `ApiException`
(src/unnamed/part_004 for Node, src/unnamed/part_014 and the
`SingaPay\Exceptions` namespace for PHP; flat hierarchy under the base
SDK exception).  The attached cause (`originalError` / `$previous`) is
modelled by the message string of the attached throwable. -/
inductive SPError where
  | authE (message : String) (code : Int) (cause : Option String)
  | validE (message : String) (errors : JVal) (code : Int) (cause : Option String)
  | apiE (message : String) (code : Int) (cause : Option String)
deriving Repr, DecidableEq

namespace SPError

/-- `getCode()` / `.code` of an SDK exception. -/
def code : SPError → Int
  | authE _ c _ => c
  | validE _ _ c _ => c
  | apiE _ c _ => c

/-- `getMessage()` / `.message` of an SDK exception. -/
def message : SPError → String
  | authE m _ _ => m
  | validE m _ _ _ => m
  | apiE m _ _ => m

/-- The attached cause of an SDK exception (message of the wrapped
throwable, `none` when no cause was attached). -/
def cause : SPError → Option String
  | authE _ _ c => c
  | validE _ _ _ c => c
  | apiE _ _ c => c

/-- `instanceof ApiException` (Node) / `catch (ApiException)` (PHP). -/
def isApi : SPError → Bool
  | apiE .. => true
  | _ => false

/-- `instanceof AuthenticationException`. -/
def isAuth : SPError → Bool
  | authE .. => true
  | _ => false

/-- `instanceof ValidationException`. -/
def isValidation : SPError → Bool
  | validE .. => true
  | _ => false

end SPError

/-! ## Single-request execution (`request`) and its error classification -/

namespace Node

/-- Outcome of the underlying axios transport call for one request:
either a resolved 2xx response, a rejected promise carrying an HTTP
response (`error.response` present, with status, `error.response.data` and
the error's message), or a rejected promise with no HTTP response
(network error / timeout, carrying only a message). -/
inductive AxiosOutcome where
  | ok (status : Int) (data : Option JVal)
  | errResponse (status : Int) (data : Option JVal) (message : String)
  | errNetwork (message : String)
deriving Repr, DecidableEq

/-- `response.getMessage() || default` (JS `||`). -/
def messageOr (r : Response) (default : String) : String :=
  match r.getMessage with
  | some v => v.render
  | none => default

/-- Node `Client.request` (src/unnamed/part_004, lines 480–575), restricted
to its outcome translation: the interceptor notifications are observers
with no influence on the result and are not modelled.  `error.response.data
|| {}` defaults a falsy body to `{}`; classification: 401 →
`AuthenticationException`, 422 → `ValidationException` (carrying
`body.errors || []`), other → `ApiException` with the HTTP status as code;
no response → `ApiException(error.message || "HTTP request failed", 0,
error)`. -/
def request (o : AxiosOutcome) : Except SPError Response :=
  match o with
  | .ok s d =>
      -- `new Response(response.status, response.data)`; the constructor
      -- defaults the body to `{}` when `undefined` is passed.
      .ok ⟨s, d.getD (.vObj [])⟩
  | .errResponse s d m =>
      let body : JVal := match d with
        | some v => if v.truthy then v else .vObj []
        | none => .vObj []
      let resp : Response := ⟨s, body⟩
      if s = 401 then
        .error (.authE (messageOr resp "Authentication failed") s (some m))
      else if s = 422 then
        let errs : JVal := match jsGet body "errors" with
          | some e => if e.truthy then e else .vArr []
          | none => .vArr []
        .error (.validE (messageOr resp "Validation failed") errs s (some m))
      else
        .error (.apiE (messageOr resp "API request failed") s (some m))
  | .errNetwork m =>
      .error (.apiE (if m != "" then m else "HTTP request failed") 0 (some m))

end Node

namespace Php

/-- Outcome of the underlying Guzzle transport call for one request:
a 2xx response, a `RequestException` (with an optional attached HTTP
response, its own message, and an optional `getPrevious()` throwable),
or some other exception. -/
inductive GuzzleOutcome where
  | ok (status : Int) (body : JVal)
  | reqExc (resp : Option (Int × JVal)) (message : String) (previous : Option String)
  | otherExc (message : String)
deriving Repr, DecidableEq

/-- `$response->getMessage() ?? default` (PHP `??`: only `null` falls
through, an empty-string message is kept). -/
def messageOr (r : Response) (default : String) : String :=
  match r.getMessage with
  | some v => v.render
  | none => default

/-- PHP `Client::request` (src/php/src/Http/Client.php, lines 345–391),
restricted to its outcome translation (interceptors are observers and not
modelled).  A `RequestException` without response yields status 0 and body
`[]`; classification: 401 → `AuthenticationException('Authentication
failed', 401, $e->getPrevious())`, 422 → `ValidationException` carrying
`$body['errors'] ?? []`, other → `ApiException` with the response message
(`?? 'API request failed'`) and the status code, cause `$e->getPrevious()`;
a non-Guzzle exception yields `ApiException('HTTP request failed: ' .
$e->getMessage(), 0, $e)`. -/
def request (o : GuzzleOutcome) : Except SPError Response :=
  match o with
  | .ok s b => .ok ⟨s, b⟩
  | .reqExc resp _ prev =>
      let statusCode : Int := match resp with
        | some (s, _) => s
        | none => 0
      let body : JVal := match resp with
        | some (_, b) => b
        | none => .vObj []
      let r : Response := ⟨statusCode, body⟩
      if statusCode = 401 then
        .error (.authE "Authentication failed" statusCode prev)
      else if statusCode = 422 then
        .error (.validE (messageOr r "Validation failed")
          (phpCoalesce (phpIndex body "errors") (.vObj [])) statusCode prev)
      else
        .error (.apiE (messageOr r "API request failed") statusCode prev)
  | .otherExc m => .error (.apiE ("HTTP request failed: " ++ m) 0 (some m))

end Php

/-! ## Retry policy -/

namespace Node

/-- Node `Client.shouldRetry` (src/unnamed/part_004, lines 421–431):
false when `retryCount >= maxRetries`, else true iff the exception's code
is one of the retryable status codes 408, 429, 500, 502, 503, 504. -/
def shouldRetry (e : SPError) (retryCount maxRetries : Nat) : Bool :=
  if retryCount ≥ maxRetries then false
  else ([408, 429, 500, 502, 503, 504] : List Int).contains e.code

end Node

namespace Php

/-- PHP `Client::shouldRetry` (src/php/src/Http/Client.php, lines 282–292):
false when `retryCount >= maxRetries`, else true iff the status code is a
5xx (`>= 500 && < 600`) or exactly 429. -/
def shouldRetry (e : SPError) (retryCount maxRetries : Nat) : Bool :=
  if retryCount ≥ maxRetries then false
  else (decide (500 ≤ e.code) && decide (e.code < 600)) || e.code == 429

end Php

instance exceptDecEq {ε α : Type} [DecidableEq ε] [DecidableEq α] :
    DecidableEq (Except ε α)
  | .ok a, .ok b =>
      if h : a = b then .isTrue (by rw [h]) else .isFalse (by intro hh; cases hh; exact h rfl)
  | .error a, .error b =>
      if h : a = b then .isTrue (by rw [h]) else .isFalse (by intro hh; cases hh; exact h rfl)
  | .ok _, .error _ => .isFalse (by intro h; cases h)
  | .error _, .ok _ => .isFalse (by intro h; cases h)

/-- Result of a `requestWithRetry` run: the value returned or exception
thrown, together with how many single-request executions and how many
token refreshes were performed. -/
structure RetryOutcome (ρ : Type) where
  result : Except SPError ρ
  execCalls : Nat
  refreshCalls : Nat
deriving Repr, DecidableEq

namespace Php

/-- Loop body of PHP `Client::requestWithRetry` (src/php/src/Http/Client.php,
lines 230–266).  The `while (retryCount <= maxRetries)` loop is embedded
with `fuel = maxRetries + 1 - retryCount` (every `continue` increments
`retryCount`, so the fuel mirrors the loop guard exactly).  `exec i` is the
transport outcome of the i-th single-request execution, `refresh j` the
outcome of the j-th `auth->refreshToken()`.  Catch arms, in source order:
`AuthenticationException` (refresh and retry under autoReauth while
`retryCount < maxRetries`, else rethrow; a refresh failure propagates),
`ApiException` (remember, retry iff `shouldRetry`), any other exception
(remember and break).  After the loop, throw the remembered exception or a
generic `ApiException`. -/
def requestWithRetryAux (autoReauth : Bool) (maxRetries : Nat)
    (exec : Nat → GuzzleOutcome) (refresh : Nat → Except SPError Unit) :
    (fuel retryCount calls refreshes : Nat) → (last : Option SPError) →
    RetryOutcome Response
  | 0, _, calls, refreshes, last =>
      ⟨.error (last.getD
        (.apiE ("Request failed after " ++ toString maxRetries ++ " retries") 0 none)),
        calls, refreshes⟩
  | fuel + 1, retryCount, calls, refreshes, last =>
      match request (exec calls) with
      | .ok r => ⟨.ok r, calls + 1, refreshes⟩
      | .error e =>
        match e with
        | .authE .. =>
            if autoReauth && decide (retryCount < maxRetries) then
              match refresh refreshes with
              | .ok _ =>
                  requestWithRetryAux autoReauth maxRetries exec refresh
                    fuel (retryCount + 1) (calls + 1) (refreshes + 1) last
              | .error re => ⟨.error re, calls + 1, refreshes + 1⟩
            else ⟨.error e, calls + 1, refreshes⟩
        | .apiE .. =>
            if shouldRetry e retryCount maxRetries then
              requestWithRetryAux autoReauth maxRetries exec refresh
                fuel (retryCount + 1) (calls + 1) refreshes (some e)
            else ⟨.error e, calls + 1, refreshes⟩
        | .validE .. => ⟨.error e, calls + 1, refreshes⟩

/-- PHP `Client::requestWithRetry` from its initial state (`retryCount = 0`,
no remembered exception). -/
def requestWithRetry (autoReauth : Bool) (maxRetries : Nat)
    (exec : Nat → GuzzleOutcome) (refresh : Nat → Except SPError Unit) :
    RetryOutcome Response :=
  requestWithRetryAux autoReauth maxRetries exec refresh (maxRetries + 1) 0 0 0 none

end Php

namespace Node

/-- Loop body of Node `Client.requestWithRetry` (src/unnamed/part_004,
lines 363–410), embedded like the PHP one with
`fuel = maxRetries + 1 - retryCount`.  Differences from PHP:
`lastException` is recorded for every caught error; on an
`AuthenticationException` under autoReauth with `retryCount < maxRetries`,
`retryCount` is incremented and the `isRefreshingToken` flag is consulted —
when clear, it is set, `auth.refreshToken()` is awaited (a refresh failure
clears the flag and breaks, surfacing the original authentication error),
and cleared again; when already set, the caller only sleeps and retries
without refreshing.  Other errors retry iff `shouldRetry`.  The flag is
client state, so its final value is returned alongside the outcome. -/
def requestWithRetryAux (autoReauth : Bool) (maxRetries : Nat)
    (exec : Nat → AxiosOutcome) (refresh : Nat → Except SPError Unit) :
    (fuel retryCount calls refreshes : Nat) → (isRefreshing : Bool) →
    (last : Option SPError) → RetryOutcome Response × Bool
  | 0, retryCount, calls, refreshes, flag, last =>
      (⟨.error (last.getD
        (.apiE ("Request failed after " ++ toString retryCount ++ " attempt(s)") 0 none)),
        calls, refreshes⟩, flag)
  | fuel + 1, retryCount, calls, refreshes, flag, last =>
      match request (exec calls) with
      | .ok r => (⟨.ok r, calls + 1, refreshes⟩, flag)
      | .error e =>
        match e with
        | .authE .. =>
            if autoReauth && decide (retryCount < maxRetries) then
              if !flag then
                match refresh refreshes with
                | .ok _ =>
                    requestWithRetryAux autoReauth maxRetries exec refresh
                      fuel (retryCount + 1) (calls + 1) (refreshes + 1) false (some e)
                | .error _ =>
                    (⟨.error e, calls + 1, refreshes + 1⟩, false)
              else
                requestWithRetryAux autoReauth maxRetries exec refresh
                  fuel (retryCount + 1) (calls + 1) refreshes flag (some e)
            else (⟨.error e, calls + 1, refreshes⟩, flag)
        | _ =>
            if shouldRetry e retryCount maxRetries then
              requestWithRetryAux autoReauth maxRetries exec refresh
                fuel (retryCount + 1) (calls + 1) refreshes flag (some e)
            else (⟨.error e, calls + 1, refreshes⟩, flag)

/-- Node `Client.requestWithRetry` from its initial state (`retryCount = 0`,
`isRefreshingToken` false as set by the client constructor). -/
def requestWithRetry (autoReauth : Bool) (maxRetries : Nat)
    (exec : Nat → AxiosOutcome) (refresh : Nat → Except SPError Unit) :
    RetryOutcome Response × Bool :=
  requestWithRetryAux autoReauth maxRetries exec refresh (maxRetries + 1) 0 0 0 false none

end Node

/-! ## Cache backends

PHP `ArrayCache` (src/php/src/Cache/ArrayCache.php) and Node `MemoryCache`
(src/node/src/cache/CacheInterface.js) share the same structure: a value
store plus an expiration-instant store.  PHP stamps expirations in seconds
(`time() + $ttl`), Node in milliseconds (`Date.now() + ttl * 1000`); both
treat an entry as expired when `now >` its expiration (strict), and `has`
deletes an expired entry as a side effect.  Association lists model the
PHP arrays / JS `Map`s; an overwriting `set` prepends, lookups take the
first binding. -/

/-- Overwriting store into an association list (`$a[$k] = $v` /
`map.set(k, v)`). -/
def storePut {α : Type} (l : List (String × α)) (k : String) (v : α) :
    List (String × α) :=
  (k, v) :: l.filter (fun p => p.1 != k)

/-- Removal from an association list (`unset($a[$k])` / `map.delete(k)`). -/
def storeDrop {α : Type} (l : List (String × α)) (k : String) :
    List (String × α) :=
  l.filter (fun p => p.1 != k)

namespace Php

/-- PHP `ArrayCache`: in-memory store with per-entry expiration instants
(seconds). -/
structure ArrayCache (V : Type) where
  storage : List (String × V)
  expirations : List (String × Int)
deriving Repr, DecidableEq

namespace ArrayCache

variable {V : Type}

/-- A fresh `ArrayCache`. -/
def empty : ArrayCache V := ⟨[], []⟩

/-- `ArrayCache::set($key, $value, $ttl)`: store the value; with a ttl,
stamp `time() + $ttl` as the expiration, else drop any expiration. -/
def set (c : ArrayCache V) (now : Int) (k : String) (v : V)
    (ttl : Option Int) : ArrayCache V :=
  { storage := storePut c.storage k v
    expirations :=
      match ttl with
      | some t => storePut c.expirations k (now + t)
      | none => storeDrop c.expirations k }

/-- `ArrayCache::delete($key)`. -/
def delete (c : ArrayCache V) (k : String) : ArrayCache V :=
  ⟨storeDrop c.storage k, storeDrop c.expirations k⟩

/-- `ArrayCache::has($key)`: false for a missing key; an entry whose
expiration lies strictly in the past is deleted and reported missing. -/
def has (c : ArrayCache V) (now : Int) (k : String) : Bool × ArrayCache V :=
  match c.storage.lookup k with
  | none => (false, c)
  | some _ =>
      match c.expirations.lookup k with
      | some e => if now > e then (false, c.delete k) else (true, c)
      | none => (true, c)

/-- `ArrayCache::get($key)`: `null` unless `has` holds. -/
def get (c : ArrayCache V) (now : Int) (k : String) :
    Option V × ArrayCache V :=
  let p := c.has now k
  if p.1 then (p.2.storage.lookup k, p.2) else (none, p.2)

/-- `ArrayCache::clear()`. -/
def clear (_c : ArrayCache V) : ArrayCache V := ⟨[], []⟩

end ArrayCache

end Php

namespace Node

/-- Node `MemoryCache`: same shape as the PHP `ArrayCache`, with
millisecond expiration stamps. -/
structure MemoryCache (V : Type) where
  storage : List (String × V)
  expirations : List (String × Int)
deriving Repr, DecidableEq

namespace MemoryCache

variable {V : Type}

/-- A fresh `MemoryCache`. -/
def empty : MemoryCache V := ⟨[], []⟩

/-- `MemoryCache.set(key, value, ttl)`: store the value; with a ttl (in
seconds), stamp `Date.now() + ttl * 1000` as the expiration. -/
def set (c : MemoryCache V) (nowMs : Int) (k : String) (v : V)
    (ttl : Option Int) : MemoryCache V :=
  { storage := storePut c.storage k v
    expirations :=
      match ttl with
      | some t => storePut c.expirations k (nowMs + t * 1000)
      | none => storeDrop c.expirations k }

/-- `MemoryCache.delete(key)`. -/
def delete (c : MemoryCache V) (k : String) : MemoryCache V :=
  ⟨storeDrop c.storage k, storeDrop c.expirations k⟩

/-- `MemoryCache.has(key)`: false for a missing key; an entry whose
expiration lies strictly in the past is deleted and reported missing. -/
def has (c : MemoryCache V) (nowMs : Int) (k : String) :
    Bool × MemoryCache V :=
  match c.storage.lookup k with
  | none => (false, c)
  | some _ =>
      match c.expirations.lookup k with
      | some e => if nowMs > e then (false, c.delete k) else (true, c)
      | none => (true, c)

/-- `MemoryCache.get(key)`: `null` unless `has` holds. -/
def get (c : MemoryCache V) (nowMs : Int) (k : String) :
    Option V × MemoryCache V :=
  let p := c.has nowMs k
  if p.1 then (p.2.storage.lookup k, p.2) else (none, p.2)

end MemoryCache

end Node

/-! ## Token lifecycle: PHP `Authentication`
(src/php/src/Security/Authentication.php)

The HTTP side is abstracted by `post : Nat → Except SPError Response`, the
outcome of the i-th `$this->client->post('/api/v1.1/access-token/b2b', …)`
(the retrying client's final verdict for that logical call).  `md5` is the
PHP `md5` hash, kept as a function parameter.  The signature generation
(`Signature::generateV11`) only shapes the outgoing request, which `post`
abstracts, so it does not appear. -/

namespace Php

/-- PHP string truthiness (`!$s`): empty string and `"0"` are falsy. -/
def phpStrTruthy (s : String) : Bool := s != "" && s != "0"

/-- `$a ?: $b` on a nullable string (Elvis: keep `a` when truthy). -/
def elvisStr (a b : Option String) : Option String :=
  match a with
  | some s => if phpStrTruthy s then some s else b
  | none => b

/-- `$a ?: $b` on a nullable int (0 is falsy). -/
def elvisInt (a b : Option Int) : Option Int :=
  match a with
  | some n => if n != 0 then some n else b
  | none => b

/-- The cache payload written by `Authentication::cacheToken`: the array
`['token' => …, 'expiry' => …]`. -/
structure CachedTok where
  token : String
  expiry : Int
deriving Repr, DecidableEq

/-- Mutable state of a PHP `Authentication` instance: the in-memory token
and expiry (both nullable) and the cache collaborator. -/
structure AuthState where
  accessToken : Option String
  tokenExpiry : Option Int
  cache : ArrayCache CachedTok
deriving Repr, DecidableEq

/-- What a PHP `Authentication` operation can throw: an SDK exception, or
the `\RuntimeException` raised when no HTTP client is attached. -/
inductive Thrown where
  | spe (e : SPError)
  | runtimeE (message : String)
deriving Repr, DecidableEq

/-- Result of a PHP token operation: the value returned or exception
thrown, the new instance state, and the number of `$this->client->post`
invocations performed. -/
structure AuthResult where
  result : Except Thrown String
  state : AuthState
  postCalls : Nat
deriving Repr, DecidableEq

/-- `Authentication::getCacheKey()`:
`'singapay_token_' . md5($clientId . $clientSecret)`. -/
def getCacheKey (md5 : String → String) (clientId clientSecret : String) :
    String :=
  "singapay_token_" ++ md5 (clientId ++ clientSecret)

/-- `Authentication::isTokenValid($token, $expiry)`: Elvis-default the
arguments from the instance state, report false for a falsy token or
expiry, else `time() < $expiry - 60` (the 60-second safety margin). -/
def isTokenValid (st : AuthState) (now : Int) (token : Option String)
    (expiry : Option Int) : Bool :=
  let t := elvisStr token st.accessToken
  let e := elvisInt expiry st.tokenExpiry
  match t, e with
  | some tok, some ex =>
      if !phpStrTruthy tok || ex == 0 then false else decide (now < ex - 60)
  | _, _ => false

/-- `Authentication::cacheToken($token, $expiry)`: write
`['token','expiry']` under the namespaced key with
`$ttl = $expiry - time() - 120` — unconditionally, whatever the sign of
the ttl. -/
def cacheToken (md5 : String → String) (clientId clientSecret : String)
    (st : AuthState) (now : Int) (token : String) (expiry : Int) :
    AuthState :=
  let key := getCacheKey md5 clientId clientSecret
  let ttl := expiry - now - 120
  { st with cache := st.cache.set now key ⟨token, expiry⟩ (some ttl) }

/-- `Authentication::requestNewToken()`: throw `\RuntimeException` when no
client is attached; otherwise POST once to the token endpoint.  Inside the
`try`: a non-success response raises `AuthenticationException($msg ??
'Failed to obtain access token', $code)`; a missing
`$data['access_token']` raises `AuthenticationException('Access token not
found in response')`; on success the token and `time() + ($data
['expires_in'] ?? 3600)` are stored and cached.  The surrounding
`catch (\Exception $e)` re-wraps *every* exception — including those two
and anything thrown by `$this->client->post` — into
`AuthenticationException('Authentication failed: ' . $e->getMessage(), 0,
$e)`, so every failure surfaces with code 0. -/
def requestNewToken (hasClient : Bool) (md5 : String → String)
    (clientId clientSecret : String) (post : Nat → Except SPError Response)
    (st : AuthState) (now : Int) : AuthResult :=
  if !hasClient then
    ⟨.error (.runtimeE "HTTP client must be set before requesting tokens"), st, 0⟩
  else
    match post 0 with
    | .error e =>
        ⟨.error (.spe (.authE ("Authentication failed: " ++ e.message) 0
          (some e.message))), st, 1⟩
    | .ok r =>
        if !r.isSuccess then
          let innerMsg := messageOr r "Failed to obtain access token"
          ⟨.error (.spe (.authE ("Authentication failed: " ++ innerMsg) 0
            (some innerMsg))), st, 1⟩
        else
          let data := r.getData
          let tokenField : Option JVal :=
            match data with
            | some d => phpIndex d "access_token"
            | none => none
          if phpIsset tokenField then
            let token := (tokenField.getD .vNull).render
            let expiresIn : Int :=
              match data with
              | some d =>
                  match phpCoalesce (phpIndex d "expires_in") (.vNum 3600) with
                  | .vNum n => n
                  | _ => 3600
              | none => 3600
            let expiry := now + expiresIn
            let st1 := { st with accessToken := some token,
                                 tokenExpiry := some expiry }
            let st2 := cacheToken md5 clientId clientSecret st1 now token expiry
            ⟨.ok token, st2, 1⟩
          else
            ⟨.error (.spe (.authE
              "Authentication failed: Access token not found in response" 0
              (some "Access token not found in response"))), st, 1⟩

/-- `Authentication::getAccessToken()`: return the in-memory token when it
passes `isTokenValid()`; else look the namespaced key up in the cache and,
when the cached pair passes `isTokenValid`, promote and return it; else
fall through to `requestNewToken()`. -/
def getAccessToken (hasClient : Bool) (md5 : String → String)
    (clientId clientSecret : String) (post : Nat → Except SPError Response)
    (st : AuthState) (now : Int) : AuthResult :=
  if isTokenValid st now none none then
    ⟨.ok (st.accessToken.getD ""), st, 0⟩
  else
    let key := getCacheKey md5 clientId clientSecret
    let p := st.cache.get now key
    let st1 := { st with cache := p.2 }
    match p.1 with
    | some ct =>
        if isTokenValid st1 now (some ct.token) (some ct.expiry) then
          ⟨.ok ct.token,
            { st1 with accessToken := some ct.token,
                        tokenExpiry := some ct.expiry }, 0⟩
        else
          requestNewToken hasClient md5 clientId clientSecret post st1 now
    | none =>
        requestNewToken hasClient md5 clientId clientSecret post st1 now

/-- `Authentication::refreshToken()`: clear the in-memory token, delete
the cache entry, then `requestNewToken()`. -/
def refreshToken (hasClient : Bool) (md5 : String → String)
    (clientId clientSecret : String) (post : Nat → Except SPError Response)
    (st : AuthState) (now : Int) : AuthResult :=
  let key := getCacheKey md5 clientId clientSecret
  let st1 : AuthState :=
    { accessToken := none, tokenExpiry := none, cache := st.cache.delete key }
  requestNewToken hasClient md5 clientId clientSecret post st1 now

end Php

/-! ## Token lifecycle: Node `Authentication`
(src/node/src/security/Authentication.js)

As on the PHP side, the HTTP call is abstracted by `post`.  The client
credentials only shape the outgoing request (the auth signature and the
`X-CLIENT-ID` / `X-PARTNER-ID` headers), which `post` abstracts, so they
are parameters that the state transition does not inspect — in particular
the cache key is the fixed string `"access_token"`, independent of them. -/

/-- Truthiness of a nullable string (`if (x)` in JS on a string-or-null). -/
def optStrTruthy : Option String → Bool
  | some s => s != ""
  | none => false

namespace Node

/-- Mutable state of a Node `Authentication` instance: the in-memory token
(`null` initially; no expiry is tracked in memory) and the optional cache
collaborator. -/
structure AuthState where
  accessToken : Option String
  cache : Option (MemoryCache String)
deriving Repr, DecidableEq

/-- Result of a Node token operation: the value returned or error thrown,
the new instance state, the number of `authenticate()` invocations and the
number of token-endpoint HTTP calls performed. -/
structure AuthResult where
  result : Except SPError String
  state : AuthState
  authCalls : Nat
  postCalls : Nat
deriving Repr, DecidableEq

/-- Node `Authentication.authenticate()`: throw when no client is attached
(before the `try`, so unwrapped); POST once to the token endpoint.  A
non-success response raises `AuthenticationException(msg || default,
statusCode)`; the token is `data.access_token || data.data?.access_token`
(dual flat/nested shape), falsy → `AuthenticationException('No access
token in response')`; `expires_in` read the same way with default 3600;
with a cache attached the token is cached under `"access_token"` with ttl
`expiresIn - 60`.  The `catch` rethrows `AuthenticationException`s
unchanged and wraps anything else as `AuthenticationException
('Authentication request failed: ' + message, 0, error)`. -/
def authenticate (hasClient : Bool) (_clientId _clientSecret _apiKey : String)
    (post : Nat → Except SPError Response) (st : AuthState) (nowMs : Int) :
    AuthResult :=
  if !hasClient then
    ⟨.error (.authE "HTTP client not initialized" 0 none), st, 1, 0⟩
  else
    match post 0 with
    | .error e =>
        match e with
        | .authE .. => ⟨.error e, st, 1, 1⟩
        | _ =>
            ⟨.error (.authE ("Authentication request failed: " ++ e.message) 0
              (some e.message)), st, 1, 1⟩
    | .ok r =>
        if !r.isSuccess then
          ⟨.error (.authE (messageOr r "Authentication failed") r.statusCode
            none), st, 1, 1⟩
        else
          let data := r.getData
          let t1 := jsGet data "access_token"
          let tokenVal :=
            if truthyOpt t1 then t1
            else jsOptChain (jsGet data "data") "access_token"
          if !truthyOpt tokenVal then
            ⟨.error (.authE "No access token in response" 0 none),
              { st with accessToken := none }, 1, 1⟩
          else
            let token := (tokenVal.getD .vNull).render
            let e1 := jsGet data "expires_in"
            let e2 :=
              if truthyOpt e1 then e1
              else jsOptChain (jsGet data "data") "expires_in"
            let e3 := if truthyOpt e2 then e2 else some (.vNum 3600)
            let expiresIn : Int :=
              match e3 with
              | some (.vNum n) => n
              | _ => 3600
            let st1 := { st with accessToken := some token }
            match st1.cache with
            | some c =>
                let c2 := c.set nowMs "access_token" token (some (expiresIn - 60))
                ⟨.ok token, { st1 with cache := some c2 }, 1, 1⟩
            | none => ⟨.ok token, st1, 1, 1⟩

/-- Node `Authentication.getAccessToken()`: return the in-memory token
whenever it is truthy — no expiry check of any kind; else, with a cache
attached, return a truthy cached value under `"access_token"` unchecked
and promote it to memory; else `await authenticate()` and return the
stored token. -/
def getAccessToken (hasClient : Bool)
    (clientId clientSecret apiKey : String)
    (post : Nat → Except SPError Response) (st : AuthState) (nowMs : Int) :
    AuthResult :=
  if optStrTruthy st.accessToken then
    ⟨.ok (st.accessToken.getD ""), st, 0, 0⟩
  else
    let viaAuth (stx : AuthState) : AuthResult :=
      let a := authenticate hasClient clientId clientSecret apiKey post stx nowMs
      match a.result with
      | .error e => ⟨.error e, a.state, 1, a.postCalls⟩
      | .ok _ => ⟨.ok (a.state.accessToken.getD ""), a.state, 1, a.postCalls⟩
    match st.cache with
    | some c =>
        let p := c.get nowMs "access_token"
        let st1 := { st with cache := some p.2 }
        match p.1 with
        | some ct =>
            if ct != "" then
              ⟨.ok ct, { st1 with accessToken := some ct }, 0, 0⟩
            else viaAuth st1
        | none => viaAuth st1
    | none => viaAuth st

/-- Node `Authentication.refreshToken()`: null the in-memory token, delete
the `"access_token"` cache entry if a cache is attached, then
`authenticate()`. -/
def refreshToken (hasClient : Bool) (clientId clientSecret apiKey : String)
    (post : Nat → Except SPError Response) (st : AuthState) (nowMs : Int) :
    AuthResult :=
  let st1 : AuthState := { st with accessToken := none }
  let st2 : AuthState :=
    match st1.cache with
    | some c => { st1 with cache := some (c.delete "access_token") }
    | none => st1
  authenticate hasClient clientId clientSecret apiKey post st2 nowMs

end Node

/-! ## Node `Config` (src/unnamed/part_002) and constants
(src/node/src/constants.js) -/

namespace Node

/-- `ENV_SANDBOX` -/
def ENV_SANDBOX : String := "sandbox"

/-- `ENV_PRODUCTION` -/
def ENV_PRODUCTION : String := "production"

/-- `DEFAULT_TIMEOUT` (seconds) -/
def DEFAULT_TIMEOUT : Int := 30

/-- `DEFAULT_MAX_RETRIES` -/
def DEFAULT_MAX_RETRIES : Int := 3

/-- `DEFAULT_RETRY_DELAY` (milliseconds) -/
def DEFAULT_RETRY_DELAY : Int := 1000

/-- `DEFAULT_AUTO_REAUTH` -/
def DEFAULT_AUTO_REAUTH : Bool := true

/-- `DEFAULT_CACHE_TTL` (seconds) -/
def DEFAULT_CACHE_TTL : Int := 3600

/-- `SANDBOX_URL` -/
def SANDBOX_URL : String := "https://sandbox-payment-b2b.singapay.id"

/-- `PRODUCTION_URL` -/
def PRODUCTION_URL : String := "https://payment-b2b.singapay.id"

/-- The constructor's input object: each supported property either absent
(`none` = not supplied / `undefined`) or supplied with a value of its
expected runtime type. -/
structure ConfigInput where
  clientId : Option String
  client_id : Option String
  clientSecret : Option String
  client_secret : Option String
  apiKey : Option String
  api_key : Option String
  hmacValidationKey : Option String
  hmac_validation_key : Option String
  environment : Option String
  baseUrl : Option String
  base_url : Option String
  timeout : Option Int
  maxRetries : Option Int
  max_retries : Option Int
  retryDelay : Option Int
  retry_delay : Option Int
  autoReauth : Option Bool
  auto_reauth : Option Bool
  cacheTtl : Option Int
  cache_ttl : Option Int
  customHeaders : Option (List (String × String))
  custom_headers : Option (List (String × String))
deriving Repr, DecidableEq

/-- The empty constructor argument (`new Config({})`). -/
def ConfigInput.empty : ConfigInput :=
  ⟨none, none, none, none, none, none, none, none, none, none, none, none,
   none, none, none, none, none, none, none, none, none, none⟩

/-- A constructed Node `Config`. -/
structure Config where
  clientId : Option String
  clientSecret : Option String
  apiKey : Option String
  hmacValidationKey : Option String
  environment : String
  baseUrl : String
  timeout : Int
  maxRetries : Int
  retryDelay : Int
  autoReauth : Bool
  cacheTtl : Int
  customHeaders : List (String × String)
deriving Repr, DecidableEq

/-- `a || b || null` on two nullable strings (JS `||`: empty string is
falsy). -/
def firstTruthyStr (a b : Option String) : Option String :=
  match a with
  | some s => if s != "" then some s else firstTruthyStrOne b
  | none => firstTruthyStrOne b
where
  /-- `b || null` on one nullable string. -/
  firstTruthyStrOne : Option String → Option String
    | some t => if t != "" then some t else none
    | none => none

/-- `a || b || d` on two nullable numbers (JS `||`: 0 is falsy). -/
def firstTruthyInt (a b : Option Int) (d : Int) : Int :=
  match a with
  | some n => if n != 0 then n else firstTruthyIntOne b d
  | none => firstTruthyIntOne b d
where
  /-- `b || d` on one nullable number. -/
  firstTruthyIntOne : Option Int → Int → Int
    | some m, d => if m != 0 then m else d
    | none, d => d

/-- `a ?? b ?? d` on two nullable booleans (JS `??`: `false` is kept). -/
def firstPresentBool (a b : Option Bool) (d : Bool) : Bool :=
  match a with
  | some x => x
  | none =>
      match b with
      | some y => y
      | none => d

/-- The `Config` constructor plus its eager `validate()` — `.error` models
a thrown construction error.  Every `||` fallback makes a supplied falsy
value (0, empty string) indistinguishable from an absent one; only
`autoReauth` uses `??`. -/
def mkConfig (i : ConfigInput) : Except String Config :=
  let environment :=
    match i.environment with
    | some s => if s != "" then s else ENV_SANDBOX
    | none => ENV_SANDBOX
  let defaultBaseUrl :=
    if environment == ENV_PRODUCTION then PRODUCTION_URL else SANDBOX_URL
  let cfg : Config :=
    { clientId := firstTruthyStr i.clientId i.client_id
      clientSecret := firstTruthyStr i.clientSecret i.client_secret
      apiKey := firstTruthyStr i.apiKey i.api_key
      hmacValidationKey :=
        firstTruthyStr i.hmacValidationKey i.hmac_validation_key
      environment := environment
      baseUrl :=
        match firstTruthyStr i.baseUrl i.base_url with
        | some s => s
        | none => defaultBaseUrl
      timeout :=
        match i.timeout with
        | some n => if n != 0 then n else DEFAULT_TIMEOUT
        | none => DEFAULT_TIMEOUT
      maxRetries := firstTruthyInt i.maxRetries i.max_retries DEFAULT_MAX_RETRIES
      retryDelay := firstTruthyInt i.retryDelay i.retry_delay DEFAULT_RETRY_DELAY
      autoReauth := firstPresentBool i.autoReauth i.auto_reauth DEFAULT_AUTO_REAUTH
      cacheTtl := firstTruthyInt i.cacheTtl i.cache_ttl DEFAULT_CACHE_TTL
      customHeaders :=
        match i.customHeaders with
        | some h => h
        | none =>
            match i.custom_headers with
            | some h => h
            | none => [] }
  if cfg.clientId.isNone then .error "Config field 'clientId' is required"
  else if cfg.clientSecret.isNone then
    .error "Config field 'clientSecret' is required"
  else if cfg.apiKey.isNone then .error "Config field 'apiKey' is required"
  else if !(cfg.environment == ENV_SANDBOX || cfg.environment == ENV_PRODUCTION) then
    .error "Invalid environment. Must be 'sandbox' or 'production'"
  else if cfg.maxRetries < 0 then .error "Max retries must be non-negative"
  else .ok cfg

/-- `Config.setTimeout` -/
def Config.setTimeout (c : Config) (n : Int) : Config := { c with timeout := n }

/-- `Config.setMaxRetries` -/
def Config.setMaxRetries (c : Config) (n : Int) : Config :=
  { c with maxRetries := n }

/-- `Config.setRetryDelay` -/
def Config.setRetryDelay (c : Config) (n : Int) : Config :=
  { c with retryDelay := n }

/-- `Config.setAutoReauth` -/
def Config.setAutoReauth (c : Config) (b : Bool) : Config :=
  { c with autoReauth := b }

/-- `Config.setCacheTtl` -/
def Config.setCacheTtl (c : Config) (n : Int) : Config :=
  { c with cacheTtl := n }

end Node

/-! ## Cooperative-concurrency model of Node token acquisition

The spec's scheduling model is single-threaded cooperative concurrency:
tasks suspend at I/O boundaries.  A logical request running Node
`Authentication.getAccessToken` (with no cache attached) executes a
synchronous prefix — the in-memory truthiness check, and on a miss the
synchronous part of `authenticate()` up to `await this.client.post(...)`
(the token-endpoint HTTP call) — then suspends; when the response arrives
it stores the token and returns.  Nothing in `getAccessToken` or
`authenticate` consults or sets any refresh-in-flight flag (the
`isRefreshingToken` flag lives in `Client.requestWithRetry` and gates only
the auto-reauth path there). -/

namespace Node

/-- Program counter of one logical task running `getAccessToken`. -/
inductive TaskPC where
  | start
  | awaitingAuth
  | done (token : String)
deriving Repr, DecidableEq

/-- Shared state of one `Authentication` instance under N concurrent
logical requests: the in-memory token, each task's program counter, and
the number of `authenticate()` calls that reached the token endpoint. -/
structure ConcState where
  accessToken : Option String
  tasks : List TaskPC
  authCalls : Nat
deriving Repr, DecidableEq

/-- Advance task `i` by one step (up to its next suspension point):
from `start`, a truthy in-memory token is returned at once; otherwise the
task enters `authenticate()`, issues the token-endpoint call and suspends.
From `awaitingAuth`, the response (token `serverToken`) arrives, is stored
in memory, and returned. -/
def stepTask (serverToken : String) (st : ConcState) (i : Nat) : ConcState :=
  match st.tasks.get? i with
  | none => st
  | some pc =>
      match pc with
      | .start =>
          match st.accessToken with
          | some t =>
              if t != "" then { st with tasks := st.tasks.set i (.done t) }
              else
                { st with tasks := st.tasks.set i .awaitingAuth,
                          authCalls := st.authCalls + 1 }
          | none =>
              { st with tasks := st.tasks.set i .awaitingAuth,
                        authCalls := st.authCalls + 1 }
      | .awaitingAuth =>
          { st with accessToken := some serverToken,
                    tasks := st.tasks.set i (.done serverToken) }
      | .done _ => st

/-- Run a schedule (a list of task indices, each entry advancing that task
one step). -/
def runSchedule (serverToken : String) (st : ConcState)
    (sched : List Nat) : ConcState :=
  sched.foldl (stepTask serverToken) st

/-- N fresh concurrent tasks against an instance with no token. -/
def initConc (n : Nat) : ConcState :=
  ⟨none, List.replicate n .start, 0⟩

end Node

/-! ## Supporting lemmas -/

/-- Classification of a PHP 503 response failure: always an `ApiException`
with code 503, cause `$e->getPrevious()`. -/
theorem php_request_503 (b : JVal) (m : String) (p : Option String) :
    ∃ msg, Php.request (.reqExc (some (503, b)) m p) = .error (.apiE msg 503 p) :=
  ⟨_, rfl⟩

/-- Classification of a Node 503 response failure: always an
`ApiException` with code 503, cause the axios error. -/
theorem node_request_503 (d : Option JVal) (m : String) :
    ∃ msg, Node.request (.errResponse 503 d m) = .error (.apiE msg 503 (some m)) :=
  ⟨_, rfl⟩

/-- One unfolding of the PHP retry loop body. -/
theorem php_aux_step (ar : Bool) (mr : Nat) (exec : Nat → Php.GuzzleOutcome)
    (refresh : Nat → Except SPError Unit)
    (fuel rc calls refreshes : Nat) (last : Option SPError) :
    Php.requestWithRetryAux ar mr exec refresh (fuel + 1) rc calls refreshes last
      = match Php.request (exec calls) with
        | .ok r => ⟨.ok r, calls + 1, refreshes⟩
        | .error e =>
          match e with
          | .authE .. =>
              if ar && decide (rc < mr) then
                match refresh refreshes with
                | .ok _ =>
                    Php.requestWithRetryAux ar mr exec refresh
                      fuel (rc + 1) (calls + 1) (refreshes + 1) last
                | .error re => ⟨.error re, calls + 1, refreshes + 1⟩
              else ⟨.error e, calls + 1, refreshes⟩
          | .apiE .. =>
              if Php.shouldRetry e rc mr then
                Php.requestWithRetryAux ar mr exec refresh
                  fuel (rc + 1) (calls + 1) refreshes (some e)
              else ⟨.error e, calls + 1, refreshes⟩
          | .validE .. => ⟨.error e, calls + 1, refreshes⟩ := rfl

/-- One unfolding of the Node retry loop body. -/
theorem node_aux_step (ar : Bool) (mr : Nat) (exec : Nat → Node.AxiosOutcome)
    (refresh : Nat → Except SPError Unit)
    (fuel rc calls refreshes : Nat) (flag : Bool) (last : Option SPError) :
    Node.requestWithRetryAux ar mr exec refresh (fuel + 1) rc calls refreshes flag last
      = match Node.request (exec calls) with
        | .ok r => (⟨.ok r, calls + 1, refreshes⟩, flag)
        | .error e =>
          match e with
          | .authE .. =>
              if ar && decide (rc < mr) then
                if !flag then
                  match refresh refreshes with
                  | .ok _ =>
                      Node.requestWithRetryAux ar mr exec refresh
                        fuel (rc + 1) (calls + 1) (refreshes + 1) false (some e)
                  | .error _ =>
                      (⟨.error e, calls + 1, refreshes + 1⟩, false)
                else
                  Node.requestWithRetryAux ar mr exec refresh
                    fuel (rc + 1) (calls + 1) refreshes flag (some e)
              else (⟨.error e, calls + 1, refreshes⟩, flag)
          | _ =>
              if Node.shouldRetry e rc mr then
                Node.requestWithRetryAux ar mr exec refresh
                  fuel (rc + 1) (calls + 1) refreshes flag (some e)
              else (⟨.error e, calls + 1, refreshes⟩, flag) := rfl

/-- PHP retry loop under an everywhere-503 executor: starting at any
`retryCount` with matching fuel, the loop performs exactly `fuel + 1`
further executions and ends by throwing the last 503 `ApiException`. -/
theorem php_aux_all503 (ar : Bool) (mr : Nat) (exec : Nat → Php.GuzzleOutcome)
    (refresh : Nat → Except SPError Unit)
    (h : ∀ i, ∃ b m p, exec i = .reqExc (some (503, b)) m p) :
    ∀ fuel rc calls refreshes last, rc + fuel = mr →
      ∃ m c, Php.requestWithRetryAux ar mr exec refresh (fuel + 1) rc calls refreshes last
        = ⟨.error (.apiE m 503 c), calls + (fuel + 1), refreshes⟩ := by
  intro fuel
  induction fuel with
  | zero =>
      intro rc calls refreshes last hrc
      obtain ⟨b, m, p, hb⟩ := h calls
      obtain ⟨msg, hcl⟩ := php_request_503 b m p
      have hshould : Php.shouldRetry (.apiE msg 503 p) rc mr = false := by
        have hge : rc ≥ mr := by omega
        simp [Php.shouldRetry, hge]
      refine ⟨msg, p, ?_⟩
      rw [php_aux_step, hb, hcl]
      simp [hshould]
  | succ f ih =>
      intro rc calls refreshes last hrc
      obtain ⟨b, m, p, hb⟩ := h calls
      obtain ⟨msg, hcl⟩ := php_request_503 b m p
      have hshould : Php.shouldRetry (.apiE msg 503 p) rc mr = true := by
        have hlt : ¬ (rc ≥ mr) := by omega
        simp [Php.shouldRetry, hlt, SPError.code]
      obtain ⟨m', c', hrec⟩ :=
        ih (rc + 1) (calls + 1) refreshes (some (.apiE msg 503 p)) (by omega)
      refine ⟨m', c', ?_⟩
      rw [php_aux_step, hb, hcl]
      simp only [hshould, if_true]
      rw [hrec]
      have harith : calls + 1 + (f + 1) = calls + (f + 1 + 1) := by omega
      rw [harith]

/-- Node retry loop under an everywhere-503 executor: `fuel + 1` further
executions, final throw of the last 503 `ApiException`, flag untouched. -/
theorem node_aux_all503 (ar : Bool) (mr : Nat) (exec : Nat → Node.AxiosOutcome)
    (refresh : Nat → Except SPError Unit)
    (h : ∀ i, ∃ d m, exec i = .errResponse 503 d m) :
    ∀ fuel rc calls refreshes flag last, rc + fuel = mr →
      ∃ m c, Node.requestWithRetryAux ar mr exec refresh (fuel + 1) rc calls refreshes flag last
        = (⟨.error (.apiE m 503 c), calls + (fuel + 1), refreshes⟩, flag) := by
  intro fuel
  induction fuel with
  | zero =>
      intro rc calls refreshes flag last hrc
      obtain ⟨d, m, hb⟩ := h calls
      obtain ⟨msg, hcl⟩ := node_request_503 d m
      have hshould : Node.shouldRetry (.apiE msg 503 (some m)) rc mr = false := by
        have hge : rc ≥ mr := by omega
        simp [Node.shouldRetry, hge]
      refine ⟨msg, some m, ?_⟩
      rw [node_aux_step, hb, hcl]
      simp [hshould]
  | succ f ih =>
      intro rc calls refreshes flag last hrc
      obtain ⟨d, m, hb⟩ := h calls
      obtain ⟨msg, hcl⟩ := node_request_503 d m
      have hshould : Node.shouldRetry (.apiE msg 503 (some m)) rc mr = true := by
        have hlt : ¬ (rc ≥ mr) := by omega
        simp [Node.shouldRetry, hlt, SPError.code]
      obtain ⟨m', c', hrec⟩ :=
        ih (rc + 1) (calls + 1) refreshes flag (some (.apiE msg 503 (some m))) (by omega)
      refine ⟨m', c', ?_⟩
      rw [node_aux_step, hb, hcl]
      simp only [hshould, if_true]
      rw [hrec]
      have harith : calls + 1 + (f + 1) = calls + (f + 1 + 1) := by omega
      rw [harith]

/-! ## Claims -/

/-- C1.  For every configuration with maxRetries = N and every request
whose every execution attempt fails with HTTP status 503, both the PHP and
the Node `requestWithRetry` invoke the single-request executor exactly
N + 1 times and finally throw an `ApiError` whose code is 503. -/
theorem claim1_retry_count_503 (N : Nat) (arP arN : Bool)
    (execP : Nat → Php.GuzzleOutcome) (refreshP : Nat → Except SPError Unit)
    (execN : Nat → Node.AxiosOutcome) (refreshN : Nat → Except SPError Unit)
    (hP : ∀ i, ∃ b m p, execP i = .reqExc (some (503, b)) m p)
    (hN : ∀ i, ∃ d m, execN i = .errResponse 503 d m) :
    ((Php.requestWithRetry arP N execP refreshP).execCalls = N + 1 ∧
      ∃ m c, (Php.requestWithRetry arP N execP refreshP).result
        = .error (.apiE m 503 c)) ∧
    ((Node.requestWithRetry arN N execN refreshN).1.execCalls = N + 1 ∧
      ∃ m c, (Node.requestWithRetry arN N execN refreshN).1.result
        = .error (.apiE m 503 c)) := by
  obtain ⟨mP, cP, hPr⟩ :=
    php_aux_all503 arP N execP refreshP hP N 0 0 0 none (by omega)
  obtain ⟨mN, cN, hNr⟩ :=
    node_aux_all503 arN N execN refreshN hN N 0 0 0 false none (by omega)
  constructor
  · constructor
    · simp [Php.requestWithRetry, hPr]
    · exact ⟨mP, cP, by simp [Php.requestWithRetry, hPr]⟩
  · constructor
    · simp [Node.requestWithRetry, hNr]
    · exact ⟨mN, cN, by simp [Node.requestWithRetry, hNr]⟩

/-- C1 witness: N = 2, every attempt a 503 — exactly 3 executions in each
implementation, final error an `ApiError` with code 503. -/
theorem claim1_retry_count_503_witness :
    ((Php.requestWithRetry true 2
        (fun _ => .reqExc (some (503, .vObj [])) "boom" none)
        (fun _ => .ok ())).execCalls = 2 + 1 ∧
      ∃ m c, (Php.requestWithRetry true 2
        (fun _ => .reqExc (some (503, .vObj [])) "boom" none)
        (fun _ => .ok ())).result = .error (.apiE m 503 c)) ∧
    ((Node.requestWithRetry true 2
        (fun _ => .errResponse 503 none "boom")
        (fun _ => .ok ())).1.execCalls = 2 + 1 ∧
      ∃ m c, (Node.requestWithRetry true 2
        (fun _ => .errResponse 503 none "boom")
        (fun _ => .ok ())).1.result = .error (.apiE m 503 c)) :=
  claim1_retry_count_503 2 true true
    (fun _ => .reqExc (some (503, .vObj [])) "boom" none) (fun _ => .ok ())
    (fun _ => .errResponse 503 none "boom") (fun _ => .ok ())
    (fun _ => ⟨.vObj [], "boom", none, rfl⟩)
    (fun _ => ⟨none, "boom", rfl⟩)

/-- C2 counterexample.  The claim says `shouldRetry` retries exactly the
set {408, 429, 500, 502, 503, 504}: but the PHP implementation returns
false for a 408 (attempt 0, maxRetries 3) and true for a 501 — it retries
all of 5xx plus 429 instead. -/
theorem claim2_shouldRetry_counterexample :
    Php.shouldRetry (.apiE "Request Timeout" 408 none) 0 3 = false ∧
    Php.shouldRetry (.apiE "Not Implemented" 501 none) 0 3 = true := by
  decide

/-- C2 amended.  `shouldRetry(error, attempt, maxRetries)` returns false
whenever `attempt >= maxRetries`; otherwise the Node implementation
returns true iff the error's status code is one of
{408, 429, 500, 502, 503, 504}, while the PHP implementation returns true
iff the code is a 5xx (500 ≤ code < 600) or exactly 429.  In both, a 404
with attempt 0 and maxRetries 3 gives false and a 503 gives true. -/
theorem claim2_shouldRetry_amended (e : SPError) (rc mr : Nat) :
    (Node.shouldRetry e rc mr = true ↔
      rc < mr ∧ e.code ∈ ([408, 429, 500, 502, 503, 504] : List Int)) ∧
    (Php.shouldRetry e rc mr = true ↔
      rc < mr ∧ (500 ≤ e.code ∧ e.code < 600 ∨ e.code = 429)) ∧
    Node.shouldRetry (.apiE "Not Found" 404 none) 0 3 = false ∧
    Node.shouldRetry (.apiE "Service Unavailable" 503 none) 0 3 = true ∧
    Php.shouldRetry (.apiE "Not Found" 404 none) 0 3 = false ∧
    Php.shouldRetry (.apiE "Service Unavailable" 503 none) 0 3 = true := by
  refine ⟨?_, ?_, by decide, by decide, by decide, by decide⟩
  · by_cases h : rc ≥ mr
    · simp [Node.shouldRetry, h, Nat.not_lt.mpr h]
    · simp [Node.shouldRetry, h, Nat.lt_of_not_le h, List.contains_iff_exists_mem_beq]
  · by_cases h : rc ≥ mr
    · simp [Php.shouldRetry, h, Nat.not_lt.mpr h]
    · simp [Php.shouldRetry, h, Nat.lt_of_not_le h]

/-- C3 counterexample.  The claim says a transport failure with no HTTP
response throws an `ApiError` with code 0 *and the transport message
attached as cause*: the PHP implementation, classifying a Guzzle
`RequestException` without response (the shape of a network/timeout
failure) whose message is a cURL timeout and whose `getPrevious()` is
null, throws `ApiException('API request failed', 0, null)` — code 0, but a
generic message and no cause: the transport message is dropped. -/
theorem claim3_classification_counterexample :
    Php.request (.reqExc none "cURL error 28: Operation timed out" none)
      = .error (.apiE "API request failed" 0 none) := rfl

/-- C3 amended.  For a single executed request failing with an HTTP
response, both implementations throw `AuthenticationError` on 401,
`ValidationError` carrying `body.errors` on 422, and `ApiError` with the
status as code otherwise.  For a transport failure with no HTTP response,
both throw `ApiError` with code 0; the Node implementation carries the
transport message (as message and cause), while the PHP implementation
throws the generic message `'API request failed'` with only the
exception's inner previous error as cause — the transport message is
carried only when PHP wraps a non-Guzzle exception as
`'HTTP request failed: …'`. -/
theorem claim3_classification_amended :
    (∀ (d : Option JVal) (m : String),
      ∃ msg, Node.request (.errResponse 401 d m)
        = .error (.authE msg 401 (some m))) ∧
    (∀ (b errs : JVal) (m : String), b.truthy = true →
      jsGet b "errors" = some errs → errs.truthy = true →
      ∃ msg, Node.request (.errResponse 422 (some b) m)
        = .error (.validE msg errs 422 (some m))) ∧
    (∀ (s : Int) (d : Option JVal) (m : String), s ≠ 401 → s ≠ 422 →
      ∃ msg, Node.request (.errResponse s d m)
        = .error (.apiE msg s (some m))) ∧
    (∀ m : String, m ≠ "" →
      Node.request (.errNetwork m) = .error (.apiE m 0 (some m))) ∧
    (∀ (b : JVal) (m : String) (p : Option String),
      Php.request (.reqExc (some (401, b)) m p)
        = .error (.authE "Authentication failed" 401 p)) ∧
    (∀ (b errs : JVal) (m : String) (p : Option String),
      phpIndex b "errors" = some errs → errs ≠ .vNull →
      ∃ msg, Php.request (.reqExc (some (422, b)) m p)
        = .error (.validE msg errs 422 p)) ∧
    (∀ (s : Int) (b : JVal) (m : String) (p : Option String),
      s ≠ 401 → s ≠ 422 →
      ∃ msg, Php.request (.reqExc (some (s, b)) m p)
        = .error (.apiE msg s p)) ∧
    (∀ (m : String) (p : Option String),
      Php.request (.reqExc none m p) = .error (.apiE "API request failed" 0 p)) ∧
    (∀ m : String,
      Php.request (.otherExc m)
        = .error (.apiE ("HTTP request failed: " ++ m) 0 (some m))) := by
  refine ⟨fun d m => ⟨_, rfl⟩, ?_, ?_, ?_, fun b m p => rfl, ?_, ?_,
    fun m p => rfl, fun m => rfl⟩
  · intro b errs m hb herrs htr
    refine ⟨Node.messageOr ⟨(422 : Int), b⟩ "Validation failed", ?_⟩
    simp [Node.request, hb, herrs, htr, truthyOpt]
  · intro s d m h1 h2
    refine ⟨Node.messageOr ⟨s, (match d with
      | some v => if v.truthy then v else .vObj []
      | none => .vObj [])⟩ "API request failed", ?_⟩
    simp [Node.request, h1, h2]
  · intro m hm
    simp [Node.request, hm]
  · intro b errs m p herrs hnn
    refine ⟨Php.messageOr ⟨(422 : Int), b⟩ "Validation failed", ?_⟩
    simp [Php.request, phpCoalesce, herrs, hnn]
  · intro s b m p h1 h2
    refine ⟨Php.messageOr ⟨s, b⟩ "API request failed", ?_⟩
    simp [Php.request, h1, h2]

/-- C3 witness: a 500 with a response classifies as `ApiError` code 500 in
both implementations, and a Node network failure carries its transport
message. -/
theorem claim3_classification_witness :
    (∃ msg, Node.request (.errResponse 500 none "boom")
      = .error (.apiE msg 500 (some "boom"))) ∧
    Node.request (.errNetwork "timeout of 30000ms exceeded")
      = .error (.apiE "timeout of 30000ms exceeded" 0
          (some "timeout of 30000ms exceeded")) ∧
    (∃ msg, Php.request (.reqExc (some (500, .vObj [])) "boom" none)
      = .error (.apiE msg 500 none)) :=
  ⟨claim3_classification_amended.2.2.1 500 none "boom" (by decide) (by decide),
   claim3_classification_amended.2.2.2.1 "timeout of 30000ms exceeded"
     (by decide),
   claim3_classification_amended.2.2.2.2.2.2.1 500 (.vObj []) "boom" none
     (by decide) (by decide)⟩

/-- C4 counterexample.  The claim says `getAccessToken()` returns a stored
token only when `now < expiry − 60 s`: but the Node implementation tracks
no expiry in memory.  Concretely, a token acquired at t = 0 ms with
`expires_in = 120` s (nominal expiry t = 120 s) is still returned by
`getAccessToken` at t = 10^12 ms — far past `expiry − 60 s` — with no
`authenticate()` call. -/
theorem claim4_token_validity_counterexample :
    (let post : Nat → Except SPError Node.Response := fun _ =>
      .ok ⟨200, .vObj [("success", .vBool true),
        ("data", .vObj [("access_token", .vStr "tok"),
                        ("expires_in", .vNum 120)])]⟩
     let st1 := (Node.authenticate true "idA" "secA" "keyA" post
       ⟨none, none⟩ 0).state
     st1.accessToken = some "tok" ∧
     (Node.getAccessToken true "idA" "secA" "keyA" post st1
        1000000000000).result = .ok "tok" ∧
     (Node.getAccessToken true "idA" "secA" "keyA" post st1
        1000000000000).authCalls = 0) := by
  decide

/-- C4 amended.  PHP: `isTokenValid(token, expiry)` (truthy token, nonzero
expiry) returns false exactly when `now ≥ expiry − 60` (boundary
included), and `getAccessToken()` returns the in-memory token with no HTTP
call exactly when it passes that check, else a cached pair passing the
check (promoted to memory), else falls through to `requestNewToken()`.
Node: `getAccessToken()` performs no expiry check at all — a truthy
in-memory token is returned regardless of the current time, and a truthy
cached value is returned unchecked, freshness being left entirely to the
cache's own TTL. -/
theorem claim4_token_validity_amended
    (st : Php.AuthState) (now : Int) (tok : String) (ex : Int) (hc : Bool)
    (md5 : String → String) (cid cs : String)
    (post : Nat → Except SPError Php.Response) (ct : Php.CachedTok)
    (hcN : Bool) (stN : Node.AuthState) (nowMs : Int)
    (cN : Node.MemoryCache String) (cid2 cs2 ak2 : String)
    (postN : Nat → Except SPError Node.Response) (tokN : String) :
    (Php.phpStrTruthy tok = true → ex ≠ 0 →
      (Php.isTokenValid st now (some tok) (some ex) = false ↔ now ≥ ex - 60)) ∧
    (Php.isTokenValid st now none none = true →
      Php.getAccessToken hc md5 cid cs post st now
        = ⟨.ok (st.accessToken.getD ""), st, 0⟩) ∧
    (Php.isTokenValid st now none none = false →
      (st.cache.get now (Php.getCacheKey md5 cid cs)).1 = some ct →
      Php.isTokenValid
        { st with cache := (st.cache.get now (Php.getCacheKey md5 cid cs)).2 }
        now (some ct.token) (some ct.expiry) = true →
      Php.getAccessToken hc md5 cid cs post st now
        = ⟨.ok ct.token,
            { accessToken := some ct.token, tokenExpiry := some ct.expiry,
              cache := (st.cache.get now (Php.getCacheKey md5 cid cs)).2 },
            0⟩) ∧
    (Php.isTokenValid st now none none = false →
      ((st.cache.get now (Php.getCacheKey md5 cid cs)).1 = none ∨
        ((st.cache.get now (Php.getCacheKey md5 cid cs)).1 = some ct ∧
          Php.isTokenValid
            { st with cache := (st.cache.get now (Php.getCacheKey md5 cid cs)).2 }
            now (some ct.token) (some ct.expiry) = false)) →
      Php.getAccessToken hc md5 cid cs post st now
        = Php.requestNewToken hc md5 cid cs post
            { st with cache := (st.cache.get now (Php.getCacheKey md5 cid cs)).2 }
            now) ∧
    (optStrTruthy stN.accessToken = true →
      Node.getAccessToken hcN cid2 cs2 ak2 postN stN nowMs
        = ⟨.ok (stN.accessToken.getD ""), stN, 0, 0⟩) ∧
    (optStrTruthy stN.accessToken = false → stN.cache = some cN →
      (cN.get nowMs "access_token").1 = some tokN → tokN ≠ "" →
      Node.getAccessToken hcN cid2 cs2 ak2 postN stN nowMs
        = ⟨.ok tokN,
            { accessToken := some tokN,
              cache := some (cN.get nowMs "access_token").2 }, 0, 0⟩) := by
  refine ⟨?_, ?_, ?_, ?_, ?_, ?_⟩
  · intro htr hex
    have hv : Php.isTokenValid st now (some tok) (some ex)
        = decide (now < ex - 60) := by
      simp [Php.isTokenValid, Php.elvisStr, Php.elvisInt, htr, hex]
    rw [hv]
    constructor
    · intro h
      have := of_decide_eq_false h
      omega
    · intro h
      have : ¬ (now < ex - 60) := by omega
      simp [this]
  · intro h
    simp [Php.getAccessToken, h]
  · intro h1 h2 h3
    simp [Php.getAccessToken, h1, h2, h3]
  · intro h1 h2
    rcases h2 with h2 | ⟨h2, h3⟩
    · simp [Php.getAccessToken, h1, h2]
    · simp [Php.getAccessToken, h1, h2, h3]
  · intro h
    simp [Node.getAccessToken, h]
  · intro h1 h2 h3 h4
    simp [Node.getAccessToken, h1, h2, h3, h4]

/-- C4 witness: at the exact boundary `now = expiry − 60` the PHP check
reports invalid, and a truthy in-memory token is returned by the Node
implementation at an arbitrary instant. -/
theorem claim4_token_validity_witness :
    Php.isTokenValid ⟨none, none, .empty⟩ 940 (some "tok") (some 1000) = false ∧
    Node.getAccessToken true "id" "sec" "key"
      (fun _ => .error (.apiE "unused" 0 none)) ⟨some "tok", none⟩ 999999
      = ⟨.ok "tok", ⟨some "tok", none⟩, 0, 0⟩ :=
  ⟨((claim4_token_validity_amended ⟨none, none, .empty⟩ 940 "tok" 1000 true
      (fun s => s) "a" "b" (fun _ => .error (.apiE "u" 0 none)) ⟨"", 0⟩
      true ⟨some "tok", none⟩ 999999 .empty "id" "sec" "key"
      (fun _ => .error (.apiE "unused" 0 none)) "t").1
      (by decide) (by decide)).mpr (by omega),
   (claim4_token_validity_amended ⟨none, none, .empty⟩ 940 "tok" 1000 true
      (fun s => s) "a" "b" (fun _ => .error (.apiE "u" 0 none)) ⟨"", 0⟩
      true ⟨some "tok", none⟩ 999999 .empty "id" "sec" "key"
      (fun _ => .error (.apiE "unused" 0 none)) "t").2.2.2.2.1 (by decide)⟩

/-- Looking up the key just stored. -/
theorem storePut_lookup_self {α : Type} (l : List (String × α)) (k : String)
    (v : α) : (storePut l k v).lookup k = some v := by
  simp [storePut, List.lookup]

/-- Filtering out one key leaves lookups of another key unchanged. -/
theorem filter_lookup_ne {α : Type} (l : List (String × α)) (k k' : String)
    (h : k' ≠ k) :
    (l.filter (fun p => p.1 != k)).lookup k' = l.lookup k' := by
  induction l with
  | nil => rfl
  | cons hd tl ih =>
      by_cases hk : hd.1 = k
      · have hne : (k' == hd.1) = false := by
          refine beq_eq_false_iff_ne.mpr ?_
          rw [hk]
          exact h
        have hf : (hd.1 != k) = false := by simp [bne, hk]
        simp [List.filter_cons, hf, List.lookup, hne, ih]
      · have hf : (hd.1 != k) = true := by simp [bne, hk]
        by_cases hk' : k' = hd.1
        · have hb : (k' == hd.1) = true := by simp [hk']
          simp [List.filter_cons, hf, List.lookup, hb]
        · have hb : (k' == hd.1) = false := beq_eq_false_iff_ne.mpr hk'
          simp [List.filter_cons, hf, List.lookup, hb, ih]

/-- Storing under one key leaves lookups of another key unchanged. -/
theorem storePut_lookup_ne {α : Type} (l : List (String × α)) (k k' : String)
    (v : α) (h : k' ≠ k) : (storePut l k v).lookup k' = l.lookup k' := by
  have hb : (k' == k) = false := beq_eq_false_iff_ne.mpr h
  simp only [storePut, List.lookup, hb]
  exact filter_lookup_ne l k k' h

/-- Dropping one key leaves lookups of another key unchanged. -/
theorem storeDrop_lookup_ne {α : Type} (l : List (String × α)) (k k' : String)
    (h : k' ≠ k) : (storeDrop l k).lookup k' = l.lookup k' := by
  simpa [storeDrop] using filter_lookup_ne l k k' h

/-- Reading a key whose storage and expiration entries are known: present
until `now` strictly exceeds the expiration instant, absent after. -/
theorem arrayCache_get_of_lookups {V : Type} (c : Php.ArrayCache V)
    (now : Int) (k : String) (v : V) (x : Int)
    (hs : c.storage.lookup k = some v)
    (he : c.expirations.lookup k = some x) :
    (c.get now k).1 = if now > x then none else some v := by
  by_cases hnx : now > x
  · simp [Php.ArrayCache.get, Php.ArrayCache.has, hs, he, hnx]
  · simp [Php.ArrayCache.get, Php.ArrayCache.has, hs, he, hnx]

/-- C5 counterexample.  The claim says the token is cached with
TTL = expires_in − 120 s and that a non-positive TTL means the token is
not written to the cache at all.  PHP with `expires_in = 120` (TTL 0)
still writes the entry and a read at the same second returns it; Node
caches with TTL = expires_in − 60 (here `expires_in = 100` gives a written
entry with expiration 40 000 ms where the claim's TTL −20 would mean no
write). -/
theorem claim5_cache_ttl_counterexample :
    (let post : Nat → Except SPError Php.Response := fun _ =>
      .ok ⟨200, .vObj [("success", .vBool true),
        ("data", .vObj [("access_token", .vStr "tok"),
                        ("expires_in", .vNum 120)])]⟩
     ((Php.requestNewToken true (fun s => s) "id" "sec" post
        ⟨none, none, .empty⟩ 1000).state.cache.get 1000
        (Php.getCacheKey (fun s => s) "id" "sec")).1
       = some ⟨"tok", 1120⟩) ∧
    (let postN : Nat → Except SPError Node.Response := fun _ =>
      .ok ⟨200, .vObj [("success", .vBool true),
        ("data", .vObj [("access_token", .vStr "tokA"),
                        ("expires_in", .vNum 100)])]⟩
     (Node.authenticate true "idA" "secA" "keyA" postN
        ⟨none, some .empty⟩ 0).state.cache
       = some ⟨[("access_token", "tokA")], [("access_token", 40000)]⟩) := by
  constructor
  · decide
  · decide

/-- C5 amended.  After a successful `authenticate()`, the token is stored
in memory; the PHP implementation writes it to the cache unconditionally
with TTL = expires_in − 120 s (an entry with non-positive TTL is still
written: the strict `time() > expiration` check makes it unreadable once
the clock passes the expiration instant, but a TTL-0 entry is still
served within the same second); the Node implementation writes with
TTL = expires_in − 60 s (stamped in milliseconds). -/
theorem claim5_cache_ttl_amended (md5 : String → String) (cid cs : String)
    (post : Nat → Except SPError Php.Response) (st : Php.AuthState)
    (now tokExp : Int) (r : Php.Response) (d : JVal) (tok : String)
    (cid2 cs2 ak2 : String) (postN : Nat → Except SPError Node.Response)
    (stN : Node.AuthState) (nowMs : Int) (rN : Node.Response) (dN : JVal)
    (tokN : String) (cN : Node.MemoryCache String) :
    (post 0 = .ok r → r.isSuccess = true → r.getData = some d →
      phpIndex d "access_token" = some (.vStr tok) →
      phpIndex d "expires_in" = some (.vNum tokExp) →
      (Php.requestNewToken true md5 cid cs post st now).result = .ok tok ∧
      (Php.requestNewToken true md5 cid cs post st now).state.cache.storage.lookup
          (Php.getCacheKey md5 cid cs) = some ⟨tok, now + tokExp⟩ ∧
      (Php.requestNewToken true md5 cid cs post st now).state.cache.expirations.lookup
          (Php.getCacheKey md5 cid cs) = some (now + (tokExp - 120)) ∧
      (∀ now' : Int,
        ((Php.requestNewToken true md5 cid cs post st now).state.cache.get now'
            (Php.getCacheKey md5 cid cs)).1
          = if now' > now + (tokExp - 120) then none
            else some ⟨tok, now + tokExp⟩)) ∧
    (postN 0 = .ok rN → rN.isSuccess = true → rN.getData = dN →
      jsGet dN "access_token" = some (.vStr tokN) → tokN ≠ "" →
      jsGet dN "expires_in" = some (.vNum tokExp) → tokExp ≠ 0 →
      stN.cache = some cN →
      (Node.authenticate true cid2 cs2 ak2 postN stN nowMs).state.cache
        = some (cN.set nowMs "access_token" tokN (some (tokExp - 60))) ∧
      (cN.set nowMs "access_token" tokN (some (tokExp - 60))).expirations.lookup
          "access_token" = some (nowMs + (tokExp - 60) * 1000)) := by
  constructor
  · intro hp hs hd htok hexp
    have hres : Php.requestNewToken true md5 cid cs post st now
        = ⟨.ok tok,
            Php.cacheToken md5 cid cs
              { st with accessToken := some tok,
                        tokenExpiry := some (now + tokExp) } now tok (now + tokExp),
            1⟩ := by
      simp [Php.requestNewToken, hp, hs, hd, htok, hexp, phpIsset,
        phpCoalesce, JVal.render]
    refine ⟨by simp [hres], ?_, ?_, ?_⟩
    · rw [hres]
      simp [Php.cacheToken, Php.ArrayCache.set, storePut_lookup_self]
    · rw [hres]
      simp only [Php.cacheToken, Php.ArrayCache.set]
      rw [storePut_lookup_self]
      congr 1
      omega
    · intro now'
      rw [hres]
      simp only [Php.cacheToken, Php.ArrayCache.set]
      have h1 : (storePut st.cache.storage (Php.getCacheKey md5 cid cs)
          (⟨tok, now + tokExp⟩ : Php.CachedTok)).lookup
          (Php.getCacheKey md5 cid cs) = some ⟨tok, now + tokExp⟩ :=
        storePut_lookup_self _ _ _
      have h2 : (storePut st.cache.expirations (Php.getCacheKey md5 cid cs)
          (now + (now + tokExp - now - 120))).lookup
          (Php.getCacheKey md5 cid cs) = some (now + (now + tokExp - now - 120)) :=
        storePut_lookup_self _ _ _
      have := arrayCache_get_of_lookups
        ⟨storePut st.cache.storage (Php.getCacheKey md5 cid cs) ⟨tok, now + tokExp⟩,
          storePut st.cache.expirations (Php.getCacheKey md5 cid cs)
            (now + (now + tokExp - now - 120))⟩ now'
        (Php.getCacheKey md5 cid cs) ⟨tok, now + tokExp⟩
        (now + (now + tokExp - now - 120)) h1 h2
      rw [this]
      have : now + (now + tokExp - now - 120) = now + (tokExp - 120) := by omega
      rw [this]
  · intro hp hs hd htok htne hexp hene hcache
    have hres : Node.authenticate true cid2 cs2 ak2 postN stN nowMs
        = ⟨.ok tokN,
            { accessToken := some tokN,
              cache := some (cN.set nowMs "access_token" tokN
                (some (tokExp - 60))) }, 1, 1⟩ := by
      simp [Node.authenticate, hp, hs, hd, htok, htne, hexp, hene, hcache,
        truthyOpt, JVal.truthy, JVal.render]
    refine ⟨by rw [hres], ?_⟩
    simp [Node.MemoryCache.set, storePut_lookup_self]

/-- C5 witness: a standard `expires_in = 3600` response — PHP caches the
pair with TTL 3480 readable until the expiration instant, Node caches the
token with TTL 3540 s. -/
theorem claim5_cache_ttl_witness :
    ((Php.requestNewToken true (fun s => s) "id" "sec"
        (fun _ => .ok ⟨200, .vObj [("success", .vBool true),
          ("data", .vObj [("access_token", .vStr "tok"),
                          ("expires_in", .vNum 3600)])]⟩)
        ⟨none, none, .empty⟩ 1000).state.cache.expirations.lookup
        (Php.getCacheKey (fun s => s) "id" "sec") = some (1000 + (3600 - 120))) ∧
    ((Node.MemoryCache.set .empty 0 "access_token" "tokA"
        (some (3600 - 60))).expirations.lookup "access_token"
      = some (0 + (3600 - 60) * 1000)) := by
  have h := claim5_cache_ttl_amended (fun s => s) "id" "sec"
    (fun _ => .ok ⟨200, .vObj [("success", .vBool true),
      ("data", .vObj [("access_token", .vStr "tok"),
                      ("expires_in", .vNum 3600)])]⟩)
    ⟨none, none, .empty⟩ 1000 3600
    ⟨200, .vObj [("success", .vBool true),
      ("data", .vObj [("access_token", .vStr "tok"),
                      ("expires_in", .vNum 3600)])]⟩
    (.vObj [("access_token", .vStr "tok"), ("expires_in", .vNum 3600)]) "tok"
    "idA" "secA" "keyA"
    (fun _ => .ok ⟨200, .vObj [("success", .vBool true),
      ("data", .vObj [("access_token", .vStr "tokA"),
                      ("expires_in", .vNum 3600)])]⟩)
    ⟨none, some .empty⟩ 0
    ⟨200, .vObj [("success", .vBool true),
      ("data", .vObj [("access_token", .vStr "tokA"),
                      ("expires_in", .vNum 3600)])]⟩
    (.vObj [("access_token", .vStr "tokA"), ("expires_in", .vNum 3600)]) "tokA"
    .empty
  refine ⟨(h.1 rfl (by decide) (by decide) (by decide) (by decide)).2.2.1, ?_⟩
  exact (h.2 rfl (by decide) (by decide) (by decide) (by decide) (by decide)
    (by decide) rfl).2

/-- C6 counterexample.  The claim says every failure during
`authenticate()` surfaces as an `AuthenticationError` *carrying the
failing response's message and code*: but when the PHP token request
fails with a 503 `ApiException`, the surfaced `AuthenticationError` has
code 0 (not 503) — the `catch (\Exception)` re-wrap discards the code. -/
theorem claim6_auth_failure_counterexample :
    Php.requestNewToken true (fun s => s) "id" "sec"
      (fun _ => .error (.apiE "Service Unavailable" 503 none))
      ⟨none, none, .empty⟩ 1000
      = ⟨.error (.spe (.authE "Authentication failed: Service Unavailable" 0
          (some "Service Unavailable"))), ⟨none, none, .empty⟩, 1⟩ := by
  decide

/-- C6 amended.  Every transport or non-2xx failure during
`authenticate()` surfaces as an `AuthenticationError`, but not carrying
the failing response's code: an error thrown by the HTTP client (the form
in which transport and non-2xx failures arrive) is re-wrapped with code 0
and a prefixed message — `'Authentication failed: …'` in PHP (which
re-wraps even its own non-success and missing-token
`AuthenticationException`s to code 0), `'Authentication request failed:
…'` in Node (which rethrows `AuthenticationException`s unchanged and, for
a 2xx response with `success` ≠ true, does carry the response's message
and status code).  `authenticate()` invokes the HTTP client's `post`
exactly once per invocation — retry/backoff lives solely in the retrying
client. -/
theorem claim6_auth_failure_amended (md5 : String → String) (cid cs : String)
    (post : Nat → Except SPError Php.Response) (st : Php.AuthState)
    (now : Int) (cid2 cs2 ak2 : String)
    (postN : Nat → Except SPError Node.Response) (stN : Node.AuthState)
    (nowMs : Int) :
    (∀ e, post 0 = .error e →
      Php.requestNewToken true md5 cid cs post st now
        = ⟨.error (.spe (.authE ("Authentication failed: " ++ e.message) 0
            (some e.message))), st, 1⟩) ∧
    (∀ r, post 0 = .ok r → r.isSuccess = false →
      Php.requestNewToken true md5 cid cs post st now
        = ⟨.error (.spe (.authE
            ("Authentication failed: "
              ++ Php.messageOr r "Failed to obtain access token") 0
            (some (Php.messageOr r "Failed to obtain access token")))),
            st, 1⟩) ∧
    (Php.requestNewToken true md5 cid cs post st now).postCalls = 1 ∧
    (∀ th, (Php.requestNewToken true md5 cid cs post st now).result
        = .error th → ∃ m c, th = .spe (.authE m 0 c)) ∧
    (∀ e, postN 0 = .error e → e.isAuth = false →
      Node.authenticate true cid2 cs2 ak2 postN stN nowMs
        = ⟨.error (.authE ("Authentication request failed: " ++ e.message) 0
            (some e.message)), stN, 1, 1⟩) ∧
    (∀ e, postN 0 = .error e → e.isAuth = true →
      Node.authenticate true cid2 cs2 ak2 postN stN nowMs
        = ⟨.error e, stN, 1, 1⟩) ∧
    (∀ r, postN 0 = .ok r → r.isSuccess = false →
      Node.authenticate true cid2 cs2 ak2 postN stN nowMs
        = ⟨.error (.authE (Node.messageOr r "Authentication failed")
            r.statusCode none), stN, 1, 1⟩) ∧
    (Node.authenticate true cid2 cs2 ak2 postN stN nowMs).postCalls = 1 := by
  refine ⟨?_, ?_, ?_, ?_, ?_, ?_, ?_, ?_⟩
  · intro e hp
    cases e <;> simp [Php.requestNewToken, hp, SPError.message]
  · intro r hp hs
    simp [Php.requestNewToken, hp, hs]
  · rcases hp : post 0 with e | r
    · simp [Php.requestNewToken, hp]
    · rcases hs : r.isSuccess with _ | _
      · simp [Php.requestNewToken, hp, hs]
      · simp only [Php.requestNewToken, hp, hs, Bool.not_true, Bool.not_false,
          Bool.false_eq_true, if_false, if_true]
        split <;> rfl
  · intro th hth
    rcases hp : post 0 with e | r
    · simp [Php.requestNewToken, hp] at hth
      exact ⟨_, _, hth.symm⟩
    · rcases hs : r.isSuccess with _ | _
      · simp [Php.requestNewToken, hp, hs] at hth
        exact ⟨_, _, hth.symm⟩
      · simp only [Php.requestNewToken, hp, hs, Bool.not_true, Bool.not_false,
          Bool.false_eq_true, if_false, if_true] at hth
        split at hth
        · simp at hth
        · simp at hth
          exact ⟨_, _, hth.symm⟩
  · intro e hp hna
    cases e with
    | authE m c ca => simp [SPError.isAuth] at hna
    | validE m er c ca => simp [Node.authenticate, hp, SPError.message]
    | apiE m c ca => simp [Node.authenticate, hp, SPError.message]
  · intro e hp ha
    cases e with
    | authE m c ca => simp [Node.authenticate, hp]
    | validE m er c ca => simp [SPError.isAuth] at ha
    | apiE m c ca => simp [SPError.isAuth] at ha
  · intro r hp hs
    simp [Node.authenticate, hp, hs]
  · rcases hp : postN 0 with e | r
    · cases e <;> simp [Node.authenticate, hp]
    · rcases hs : r.isSuccess with _ | _
      · simp [Node.authenticate, hp, hs]
      · simp only [Node.authenticate, hp, hs, Bool.not_true, Bool.not_false,
          Bool.false_eq_true, if_false, if_true]
        by_cases hb : (!truthyOpt
            (if truthyOpt (jsGet r.getData "access_token") = true then
              jsGet r.getData "access_token"
            else jsOptChain (jsGet r.getData "data") "access_token")) = true
        · rw [if_pos hb]
        · rw [if_neg hb]
          cases stN.cache <;> rfl

/-- C6 witness: a PHP 503 from the token endpoint surfaces as
`AuthenticationError` with code 0 after one post, and one Node post with
a non-success body surfaces as `AuthenticationError` carrying that
response's status code. -/
theorem claim6_auth_failure_witness :
    (Php.requestNewToken true (fun s => s) "id" "sec"
        (fun _ => .error (.apiE "Service Unavailable" 503 none))
        ⟨none, none, .empty⟩ 1000).postCalls = 1 ∧
    Node.authenticate true "id" "sec" "key"
        (fun _ => .ok ⟨200, .vObj [("success", .vBool false),
          ("message", .vStr "denied")]⟩) ⟨none, none⟩ 0
      = ⟨.error (.authE "denied" 200 none), ⟨none, none⟩, 1, 1⟩ :=
  ⟨(claim6_auth_failure_amended (fun s => s) "id" "sec"
      (fun _ => .error (.apiE "Service Unavailable" 503 none))
      ⟨none, none, .empty⟩ 1000 "id" "sec" "key"
      (fun _ => .ok ⟨200, .vObj [("success", .vBool false),
        ("message", .vStr "denied")]⟩) ⟨none, none⟩ 0).2.2.1,
   by
    have h := (claim6_auth_failure_amended (fun s => s) "id" "sec"
      (fun _ => .error (.apiE "Service Unavailable" 503 none))
      ⟨none, none, .empty⟩ 1000 "id" "sec" "key"
      (fun _ => .ok ⟨200, .vObj [("success", .vBool false),
        ("message", .vStr "denied")]⟩) ⟨none, none⟩ 0).2.2.2.2.2.2.1
      ⟨200, .vObj [("success", .vBool false), ("message", .vStr "denied")]⟩
      rfl (by decide)
    simpa [Node.messageOr, Node.Response.getMessage] using h⟩

/-- `(x ?? false) === true` holds exactly for a present, non-null literal
`true` (JS form). -/
theorem jsNullish_success_iff (x : Option JVal) :
    jsNullish x (.vBool false) = .vBool true ↔ x = some (.vBool true) := by
  rcases x with _ | v
  · simp [jsNullish]
  · cases v <;> simp [jsNullish]

/-- `($x ?? false) === true` holds exactly for a set, non-null literal
`true` (PHP form). -/
theorem phpCoalesce_success_iff (x : Option JVal) :
    phpCoalesce x (.vBool false) = .vBool true ↔ x = some (.vBool true) := by
  rcases x with _ | v
  · simp [phpCoalesce]
  · cases v <;> simp [phpCoalesce]

/-- C7 counterexample.  The claim says `getData()` returns `body.data` if
present and otherwise the whole body: the PHP implementation returns
`null` (not the whole body) when `data` is absent, and the Node
implementation returns the whole body even when `data` is present but
falsy. -/
theorem claim7_response_counterexample :
    Php.Response.getData ⟨200, .vObj [("success", .vBool true)]⟩ = none ∧
    Node.Response.getData ⟨200, .vObj [("data", .vBool false)]⟩
      = .vObj [("data", .vBool false)] := by
  decide

/-- C7 amended.  For every `Response(statusCode, body)`: `isSuccess()` is
true iff statusCode ∈ [200, 300) and `body.success` is exactly `true`
(both implementations).  Node `getData()` returns `body.data` when truthy
and otherwise (absent or falsy) the whole body; PHP `getData()` returns
`body.data` when set and non-null, and `null` otherwise — never the whole
body.  `getMessage()` returns `body.error.message` when truthy (Node) /
set non-null (PHP), else `body.message` under the same test, else null.
`getCode()` returns `body.error.code` when truthy (Node) / set non-null
(PHP), else statusCode.  `getPagination()` returns `body.pagination`
under the same test, else null. -/
theorem claim7_response_amended (s : Int) (b : JVal) :
    (Node.Response.isSuccess ⟨s, b⟩ = true
      ↔ 200 ≤ s ∧ s < 300 ∧ jsGet b "success" = some (.vBool true)) ∧
    (Php.Response.isSuccess ⟨s, b⟩ = true
      ↔ 200 ≤ s ∧ s < 300 ∧ phpIndex b "success" = some (.vBool true)) ∧
    (∀ v, jsGet b "data" = some v → v.truthy = true →
      Node.Response.getData ⟨s, b⟩ = v) ∧
    (truthyOpt (jsGet b "data") = false → Node.Response.getData ⟨s, b⟩ = b) ∧
    (∀ v, phpIndex b "data" = some v → v ≠ .vNull →
      Php.Response.getData ⟨s, b⟩ = some v) ∧
    (phpIsset (phpIndex b "data") = false →
      Php.Response.getData ⟨s, b⟩ = none) ∧
    (∀ v, jsOptChain (jsGet b "error") "message" = some v → v.truthy = true →
      Node.Response.getMessage ⟨s, b⟩ = some v) ∧
    (∀ v, truthyOpt (jsOptChain (jsGet b "error") "message") = false →
      jsGet b "message" = some v → v.truthy = true →
      Node.Response.getMessage ⟨s, b⟩ = some v) ∧
    (truthyOpt (jsOptChain (jsGet b "error") "message") = false →
      truthyOpt (jsGet b "message") = false →
      Node.Response.getMessage ⟨s, b⟩ = none) ∧
    (∀ v, jsOptChain (phpIndex b "error") "message" = some v → v ≠ .vNull →
      Php.Response.getMessage ⟨s, b⟩ = some v) ∧
    (∀ v, phpIsset (jsOptChain (phpIndex b "error") "message") = false →
      phpIndex b "message" = some v → v ≠ .vNull →
      Php.Response.getMessage ⟨s, b⟩ = some v) ∧
    (phpIsset (jsOptChain (phpIndex b "error") "message") = false →
      phpIsset (phpIndex b "message") = false →
      Php.Response.getMessage ⟨s, b⟩ = none) ∧
    (∀ v, jsOptChain (jsGet b "error") "code" = some v → v.truthy = true →
      Node.Response.getCode ⟨s, b⟩ = v) ∧
    (truthyOpt (jsOptChain (jsGet b "error") "code") = false →
      Node.Response.getCode ⟨s, b⟩ = .vNum s) ∧
    (∀ v, jsOptChain (phpIndex b "error") "code" = some v → v ≠ .vNull →
      Php.Response.getCode ⟨s, b⟩ = v) ∧
    (phpIsset (jsOptChain (phpIndex b "error") "code") = false →
      Php.Response.getCode ⟨s, b⟩ = .vNum s) ∧
    (∀ v, jsGet b "pagination" = some v → v.truthy = true →
      Node.Response.getPagination ⟨s, b⟩ = some v) ∧
    (truthyOpt (jsGet b "pagination") = false →
      Node.Response.getPagination ⟨s, b⟩ = none) ∧
    (∀ v, phpIndex b "pagination" = some v → v ≠ .vNull →
      Php.Response.getPagination ⟨s, b⟩ = some v) ∧
    (phpIsset (phpIndex b "pagination") = false →
      Php.Response.getPagination ⟨s, b⟩ = none) := by
  refine ⟨?_, ?_, ?_, ?_, ?_, ?_, ?_, ?_, ?_, ?_, ?_, ?_, ?_, ?_, ?_, ?_,
    ?_, ?_, ?_, ?_⟩
  · simp [Node.Response.isSuccess, jsNullish_success_iff, and_assoc]
  · simp [Php.Response.isSuccess, phpCoalesce_success_iff, and_assoc]
  · intro v h1 h2
    simp [Node.Response.getData, h1, h2]
  · intro h
    rcases hd : jsGet b "data" with _ | v
    · simp [Node.Response.getData, hd]
    · rw [hd] at h
      simp only [truthyOpt] at h
      simp [Node.Response.getData, hd, h]
  · intro v h1 h2
    simp only [Php.Response.getData, h1]
  · intro h
    rcases hd : phpIndex b "data" with _ | v
    · simp [Php.Response.getData, hd]
    · rw [hd] at h
      cases v
      · simp [Php.Response.getData, hd]
      all_goals simp [phpIsset] at h
  · intro v h1 h2
    simp only [Node.Response.getMessage, h1]
    simp [truthyOpt, h2]
  · intro v h1 h2 h3
    simp only [Node.Response.getMessage]
    rw [h1, h2]
    simp [truthyOpt, h3]
  · intro h1 h2
    simp only [Node.Response.getMessage]
    rw [h1, h2]
    rfl
  · intro v h1 h2
    simp only [Php.Response.getMessage, h1]
    cases v
    · exact absurd rfl h2
    all_goals rfl
  · intro v h1 h2 h3
    simp only [Php.Response.getMessage]
    rw [h1, h2]
    cases v
    · exact absurd rfl h3
    all_goals rfl
  · intro h1 h2
    simp only [Php.Response.getMessage]
    rw [h1, h2]
    rfl
  · intro v h1 h2
    simp [Node.Response.getCode, h1, h2]
  · intro h
    rcases hd : jsOptChain (jsGet b "error") "code" with _ | v
    · simp [Node.Response.getCode, hd]
    · rw [hd] at h
      simp only [truthyOpt] at h
      simp [Node.Response.getCode, hd, h]
  · intro v h1 h2
    simp only [Php.Response.getCode, phpCoalesce, h1]
  · intro h
    rcases hd : jsOptChain (phpIndex b "error") "code" with _ | v
    · simp [Php.Response.getCode, phpCoalesce, hd]
    · rw [hd] at h
      cases v
      · simp [Php.Response.getCode, phpCoalesce, hd]
      all_goals simp [phpIsset] at h
  · intro v h1 h2
    simp [Node.Response.getPagination, h1, h2]
  · intro h
    rcases hd : jsGet b "pagination" with _ | v
    · simp [Node.Response.getPagination, hd]
    · rw [hd] at h
      simp only [truthyOpt] at h
      simp [Node.Response.getPagination, hd, h]
  · intro v h1 h2
    simp only [Php.Response.getPagination, h1]
  · intro h
    rcases hd : phpIndex b "pagination" with _ | v
    · simp [Php.Response.getPagination, hd]
    · rw [hd] at h
      cases v
      · simp [Php.Response.getPagination, hd]
      all_goals simp [phpIsset] at h

/-- C7 witness: the spec's own scenario —
`Response(200, {success: true, data: {id: "acc_1"}})` is a success whose
data is `{id: "acc_1"}`, in both implementations. -/
theorem claim7_response_witness :
    Node.Response.isSuccess ⟨200, .vObj [("success", .vBool true),
      ("data", .vObj [("id", .vStr "acc_1")])]⟩ = true ∧
    Node.Response.getData ⟨200, .vObj [("success", .vBool true),
      ("data", .vObj [("id", .vStr "acc_1")])]⟩
      = .vObj [("id", .vStr "acc_1")] ∧
    Php.Response.getData ⟨200, .vObj [("success", .vBool true),
      ("data", .vObj [("id", .vStr "acc_1")])]⟩
      = some (.vObj [("id", .vStr "acc_1")]) :=
  ⟨(claim7_response_amended 200 (.vObj [("success", .vBool true),
      ("data", .vObj [("id", .vStr "acc_1")])])).1.mpr
      ⟨by omega, by omega, by decide⟩,
   (claim7_response_amended 200 (.vObj [("success", .vBool true),
      ("data", .vObj [("id", .vStr "acc_1")])])).2.2.1
      (.vObj [("id", .vStr "acc_1")]) (by decide) (by decide),
   (claim7_response_amended 200 (.vObj [("success", .vBool true),
      ("data", .vObj [("id", .vStr "acc_1")])])).2.2.2.2.1
      (.vObj [("id", .vStr "acc_1")]) (by decide) (by decide)⟩

/-- The first component of an `ArrayCache.get` depends only on the two
lookups of the queried key (the deletion `has` performs on an expired
entry affects only the returned cache). -/
theorem arrayCache_get_fst {V : Type} (c : Php.ArrayCache V) (now : Int)
    (k : String) :
    (c.get now k).1
      = match c.storage.lookup k with
        | none => none
        | some v =>
            match c.expirations.lookup k with
            | some e => if now > e then none else some v
            | none => some v := by
  rcases hs : c.storage.lookup k with _ | v
  · simp [Php.ArrayCache.get, Php.ArrayCache.has, hs]
  · rcases he : c.expirations.lookup k with _ | e
    · simp [Php.ArrayCache.get, Php.ArrayCache.has, hs, he]
    · by_cases hn : now > e
      · simp [Php.ArrayCache.get, Php.ArrayCache.has, hs, he, hn]
      · simp [Php.ArrayCache.get, Php.ArrayCache.has, hs, he, hn]

/-- Distinct suffixes give distinct strings under a common prefix. -/
theorem string_append_ne (p a b : String) (h : a ≠ b) : p ++ a ≠ p ++ b := by
  intro hab
  apply h
  have hd := congrArg String.data hab
  simp only [String.data_append] at hd
  have := List.append_cancel_left hd
  cases a
  cases b
  exact congrArg String.mk this

/-- C8 counterexample.  The claim says a token stored by one SDK instance
is never read back as another differently-credentialed instance's token:
but the Node implementation uses the fixed cache key `"access_token"`.
Instance A (credentials `clientA`/`secretA`) authenticates and mirrors its
token into the shared cache; instance B (credentials `clientB`/`secretB`)
then reads that very token back from the shared cache — with no
authentication of its own. -/
theorem claim8_cache_key_counterexample :
    (let postA : Nat → Except SPError Node.Response := fun _ =>
      .ok ⟨200, .vObj [("success", .vBool true),
        ("data", .vObj [("access_token", .vStr "tokA"),
                        ("expires_in", .vNum 3600)])]⟩
     let rA := Node.authenticate true "clientA" "secretA" "keyA" postA
       ⟨none, some .empty⟩ 0
     let rB := Node.getAccessToken true "clientB" "secretB" "keyB"
       (fun _ => .error (.apiE "unused" 0 none))
       ⟨none, some (rA.state.cache.getD .empty)⟩ 5000
     rA.result = .ok "tokA" ∧ rB.result = .ok "tokA" ∧ rB.authCalls = 0) := by
  decide

/-- C8 amended.  The PHP implementation namespaces the cache key as
`'singapay_token_' . md5(clientId . clientSecret)`: two instances whose
credential digests differ use distinct keys, and one instance's token
write is invisible to the other's cache read.  The Node implementation
stores the token under the fixed key `"access_token"` independently of
the credentials, so two Node instances sharing a cache backend collide:
whatever token sits under that key — including one written by a
differently-credentialed instance — is returned as-is, and the whole
token operation is invariant under changing the credentials. -/
theorem claim8_cache_key_amended (md5 : String → String)
    (cid1 cs1 cid2 cs2 : String) (st : Php.AuthState) (now now' : Int)
    (tok : String) (tokExp : Int) (c : Node.MemoryCache String)
    (stB : Node.AuthState) (nowMs : Int) (cidA csA akA cidB csB akB : String)
    (postB : Nat → Except SPError Node.Response) (tokA : String) :
    (md5 (cid1 ++ cs1) ≠ md5 (cid2 ++ cs2) →
      Php.getCacheKey md5 cid1 cs1 ≠ Php.getCacheKey md5 cid2 cs2) ∧
    (md5 (cid1 ++ cs1) ≠ md5 (cid2 ++ cs2) →
      ((Php.cacheToken md5 cid1 cs1 st now tok tokExp).cache.get now'
          (Php.getCacheKey md5 cid2 cs2)).1
        = (st.cache.get now' (Php.getCacheKey md5 cid2 cs2)).1) ∧
    (stB.accessToken = none → stB.cache = some c →
      (c.get nowMs "access_token").1 = some tokA → tokA ≠ "" →
      (Node.getAccessToken true cidB csB akB postB stB nowMs).result
          = .ok tokA ∧
      (Node.getAccessToken true cidB csB akB postB stB nowMs).authCalls = 0) ∧
    (∀ (post : Nat → Except SPError Node.Response) (stA : Node.AuthState),
      Node.authenticate true cidA csA akA post stA nowMs
        = Node.authenticate true cidB csB akB post stA nowMs) := by
  refine ⟨?_, ?_, ?_, fun post stA => rfl⟩
  · intro hne
    exact string_append_ne "singapay_token_" _ _ hne
  · intro hne
    have hk : Php.getCacheKey md5 cid2 cs2 ≠ Php.getCacheKey md5 cid1 cs1 :=
      fun h => string_append_ne "singapay_token_" _ _ (fun h2 => hne h2.symm) h
    rw [arrayCache_get_fst, arrayCache_get_fst]
    simp only [Php.cacheToken, Php.ArrayCache.set]
    rw [storePut_lookup_ne _ _ _ _ hk, storePut_lookup_ne _ _ _ _ hk]
  · intro h1 h2 h3 h4
    have hres : Node.getAccessToken true cidB csB akB postB stB nowMs
        = ⟨.ok tokA,
            { accessToken := some tokA,
              cache := some (c.get nowMs "access_token").2 }, 0, 0⟩ := by
      simp [Node.getAccessToken, h1, h2, h3, h4, optStrTruthy]
    rw [hres]
    exact ⟨rfl, rfl⟩

/-- C8 witness: with distinct digests the PHP keys differ, and a Node
instance returns the foreign token found under the shared fixed key. -/
theorem claim8_cache_key_witness :
    Php.getCacheKey (fun s => s) "clientA" "secretA"
      ≠ Php.getCacheKey (fun s => s) "clientB" "secretB" ∧
    (Node.getAccessToken true "clientB" "secretB" "keyB"
        (fun _ => .error (.apiE "unused" 0 none))
        ⟨none, some ⟨[("access_token", "tokA")], []⟩⟩ 5000).result
      = .ok "tokA" :=
  ⟨(claim8_cache_key_amended (fun s => s) "clientA" "secretA" "clientB"
      "secretB" ⟨none, none, .empty⟩ 0 0 "t" 0 ⟨[("access_token", "tokA")], []⟩
      ⟨none, some ⟨[("access_token", "tokA")], []⟩⟩ 5000
      "clientA" "secretA" "keyA" "clientB" "secretB" "keyB"
      (fun _ => .error (.apiE "unused" 0 none)) "tokA").1 (by decide),
   ((claim8_cache_key_amended (fun s => s) "clientA" "secretA" "clientB"
      "secretB" ⟨none, none, .empty⟩ 0 0 "t" 0 ⟨[("access_token", "tokA")], []⟩
      ⟨none, some ⟨[("access_token", "tokA")], []⟩⟩ 5000
      "clientA" "secretA" "keyA" "clientB" "secretB" "keyB"
      (fun _ => .error (.apiE "unused" 0 none)) "tokA").2.2.1
      rfl rfl (by decide) (by decide)).1⟩

/-- C9.  The claim requires single-flight token refresh: N concurrent
requests against an expired/absent token must trigger exactly one
`authenticate()` call.  Running two concurrent Node `getAccessToken`
tasks under the spec's cooperative scheduling model, with the second
task's synchronous prefix scheduled before the first task's token
response arrives (schedule [0, 1, 0, 1]), yields two `authenticate()`
calls to the token endpoint; only fully serial execution ([0, 0, 1])
yields one.  Nothing in `getAccessToken`/`authenticate` consults a
refresh-in-flight gate. -/
theorem claim9_single_flight_violated :
    (Node.runSchedule "tok" (Node.initConc 2) [0, 1, 0, 1]).authCalls = 2 ∧
    (Node.runSchedule "tok" (Node.initConc 2) [0, 0, 1]).authCalls = 1 := by
  decide

/-- C10.  In the Node `Config` constructor a supplied 0 for timeout,
maxRetries, retryDelay or cacheTtl falls back to the corresponding
default (`||` treats 0 as absent), so no successfully constructed config
has 0 in any of those fields — only the post-construction setters can
produce one. -/
theorem claim10_config_zero_defaults (i : Node.ConfigInput)
    (cfg : Node.Config) (h : Node.mkConfig i = .ok cfg) :
    (cfg.timeout ≠ 0 ∧ cfg.maxRetries ≠ 0 ∧ cfg.retryDelay ≠ 0 ∧
      cfg.cacheTtl ≠ 0) ∧
    (i.timeout = some 0 → cfg.timeout = Node.DEFAULT_TIMEOUT) ∧
    (i.maxRetries = some 0 → i.max_retries = none →
      cfg.maxRetries = Node.DEFAULT_MAX_RETRIES) ∧
    (i.retryDelay = some 0 → i.retry_delay = none →
      cfg.retryDelay = Node.DEFAULT_RETRY_DELAY) ∧
    (i.cacheTtl = some 0 → i.cache_ttl = none →
      cfg.cacheTtl = Node.DEFAULT_CACHE_TTL) ∧
    (∀ c : Node.Config, (c.setTimeout 0).timeout = 0 ∧
      (c.setMaxRetries 0).maxRetries = 0 ∧
      (c.setRetryDelay 0).retryDelay = 0 ∧ (c.setCacheTtl 0).cacheTtl = 0) := by
  have hI : ∀ (a b : Option Int) (d : Int), d ≠ 0 →
      Node.firstTruthyInt a b d ≠ 0 := by
    intro a b d hd
    rcases a with _ | n
    · rcases b with _ | m
      · simpa [Node.firstTruthyInt, Node.firstTruthyInt.firstTruthyIntOne]
          using hd
      · by_cases hm : m = 0 <;>
          simp [Node.firstTruthyInt, Node.firstTruthyInt.firstTruthyIntOne,
            hm, hd]
    · by_cases hn : n = 0
      · rcases b with _ | m
        · simpa [Node.firstTruthyInt, Node.firstTruthyInt.firstTruthyIntOne,
            hn] using hd
        · by_cases hm : m = 0 <;>
            simp [Node.firstTruthyInt, Node.firstTruthyInt.firstTruthyIntOne,
              hn, hm, hd]
      · simp [Node.firstTruthyInt, hn]
  have hcfg : cfg.timeout
        = (match i.timeout with
            | some n => if n != 0 then n else Node.DEFAULT_TIMEOUT
            | none => Node.DEFAULT_TIMEOUT) ∧
      cfg.maxRetries
        = Node.firstTruthyInt i.maxRetries i.max_retries
            Node.DEFAULT_MAX_RETRIES ∧
      cfg.retryDelay
        = Node.firstTruthyInt i.retryDelay i.retry_delay
            Node.DEFAULT_RETRY_DELAY ∧
      cfg.cacheTtl
        = Node.firstTruthyInt i.cacheTtl i.cache_ttl
            Node.DEFAULT_CACHE_TTL := by
    simp only [Node.mkConfig] at h
    split_ifs at h
    all_goals
      simp only [Except.ok.injEq] at h
      subst h
      exact ⟨rfl, rfl, rfl, rfl⟩
  obtain ⟨ht, hm, hr, hc⟩ := hcfg
  refine ⟨⟨?_, ?_, ?_, ?_⟩, ?_, ?_, ?_, ?_, fun c => ⟨rfl, rfl, rfl, rfl⟩⟩
  · rw [ht]
    rcases i.timeout with _ | n
    · simp [Node.DEFAULT_TIMEOUT]
    · by_cases hn : n = 0 <;> simp [hn, Node.DEFAULT_TIMEOUT]
  · rw [hm]
    exact hI _ _ _ (by simp [Node.DEFAULT_MAX_RETRIES])
  · rw [hr]
    exact hI _ _ _ (by simp [Node.DEFAULT_RETRY_DELAY])
  · rw [hc]
    exact hI _ _ _ (by simp [Node.DEFAULT_CACHE_TTL])
  · intro h0
    rw [ht, h0]
    simp
  · intro h0 h0'
    rw [hm, h0, h0']
    simp [Node.firstTruthyInt, Node.firstTruthyInt.firstTruthyIntOne]
  · intro h0 h0'
    rw [hr, h0, h0']
    simp [Node.firstTruthyInt, Node.firstTruthyInt.firstTruthyIntOne]
  · intro h0 h0'
    rw [hc, h0, h0']
    simp [Node.firstTruthyInt, Node.firstTruthyInt.firstTruthyIntOne]

/-- C10 witness: a config constructed with 0 for all four numeric fields
gets the defaults 30 / 3 / 1000 / 3600; the setters then do produce 0. -/
theorem claim10_config_zero_defaults_witness :
    ({ clientId := some "a", clientSecret := some "b", apiKey := some "c",
       hmacValidationKey := none, environment := "sandbox",
       baseUrl := Node.SANDBOX_URL, timeout := 30, maxRetries := 3,
       retryDelay := 1000, autoReauth := true, cacheTtl := 3600,
       customHeaders := [] } : Node.Config).maxRetries
      = Node.DEFAULT_MAX_RETRIES ∧
    (({ clientId := some "a", clientSecret := some "b", apiKey := some "c",
        hmacValidationKey := none, environment := "sandbox",
        baseUrl := Node.SANDBOX_URL, timeout := 30, maxRetries := 3,
        retryDelay := 1000, autoReauth := true, cacheTtl := 3600,
        customHeaders := [] } : Node.Config).setMaxRetries 0).maxRetries
      = 0 :=
  ⟨(claim10_config_zero_defaults
      { Node.ConfigInput.empty with
          clientId := some "a", clientSecret := some "b", apiKey := some "c",
          timeout := some 0, maxRetries := some 0, retryDelay := some 0,
          cacheTtl := some 0 }
      { clientId := some "a", clientSecret := some "b", apiKey := some "c",
        hmacValidationKey := none, environment := "sandbox",
        baseUrl := Node.SANDBOX_URL, timeout := 30, maxRetries := 3,
        retryDelay := 1000, autoReauth := true, cacheTtl := 3600,
        customHeaders := [] }
      (by decide)).2.2.1 rfl rfl,
   ((claim10_config_zero_defaults
      { Node.ConfigInput.empty with
          clientId := some "a", clientSecret := some "b", apiKey := some "c",
          timeout := some 0, maxRetries := some 0, retryDelay := some 0,
          cacheTtl := some 0 }
      { clientId := some "a", clientSecret := some "b", apiKey := some "c",
        hmacValidationKey := none, environment := "sandbox",
        baseUrl := Node.SANDBOX_URL, timeout := 30, maxRetries := 3,
        retryDelay := 1000, autoReauth := true, cacheTtl := 3600,
        customHeaders := [] }
      (by decide)).2.2.2.2.2
      { clientId := some "a", clientSecret := some "b", apiKey := some "c",
        hmacValidationKey := none, environment := "sandbox",
        baseUrl := Node.SANDBOX_URL, timeout := 30, maxRetries := 3,
        retryDelay := 1000, autoReauth := true, cacheTtl := 3600,
        customHeaders := [] }).2.1⟩

end SingaPay
